import Mathlib

/-!
# Verification development for the background-gen wallpaper generator

A shallow embedding, in Lean 4, of the parts of the repository that the
specification claims talk about:

* `src/static/js/state.js` — parameter snapshot defaults, deep merge
  normalization, serialization and URL encoding;
* `src/static/js/presets.js` — the preset manager history list;
* the CPU noise library (`noise.js`) — seeded 2D noise generators and the
  grain-data octave loop;
* the WebGL2 fragment shader (`src/static/js/webgl/shaders.js`) together with
  the uniform upload performed by `renderWebGL` in `src/static/js/renderer.js`;
* the Canvas2D renderer pipeline (`WallpaperRenderer.paintWallpaper`) to the
  depth the claims exercise;
* the PNG metadata embedding and CRC-32 code shared by both renderer files.

JavaScript numbers used for real-valued pixel math are modelled as real
numbers; JSON numbers are modelled as rationals (every JSON literal exercised
here is one); 32-bit integer/bitwise operations are modelled exactly on
`Nat`/`Int` with explicit reduction modulo 2^32.
-/

namespace BackgroundGen

set_option maxHeartbeats 1000000


/-! ## JSON values

`state.js` manipulates plain JSON data (objects, arrays, strings, finite
numbers, booleans, null).  Objects and arrays are represented by their
spines (`onil`/`ocons`, `anil`/`acons`) so that every operation below is
plain structural recursion; object fields are kept in key insertion order,
which is the enumeration order of `Object.keys` for the non-integer string
keys used by the snapshot schema. -/

inductive JVal where
  | null : JVal
  | bool (b : Bool) : JVal
  | num (q : Rat) : JVal
  | str (s : String) : JVal
  | anil : JVal
  | acons (hd tl : JVal) : JVal
  | onil : JVal
  | ocons (key : String) (val tl : JVal) : JVal
deriving Repr, DecidableEq

/-- An object from an association list. -/
def ofObj (l : List (String × JVal)) : JVal :=
  l.foldr (fun kv acc => .ocons kv.1 kv.2 acc) .onil

/-- An array from a list. -/
def ofArr (l : List JVal) : JVal := l.foldr .acons .anil

/-- `target[k]` — first association for `k`, if any. -/
def objGet : JVal → String → Option JVal
  | .ocons k2 v rest, k => if k2 = k then some v else objGet rest k
  | _, _ => none

/-- Two-level field lookup, e.g. `state.color.hue`. -/
def objGet2 (v : JVal) (k1 k2 : String) : Option JVal :=
  match objGet v k1 with
  | some inner => objGet inner k2
  | none => none

/-- JS property assignment `target[k] = v` on an object: an existing key
keeps its position, a new key is appended.  Inert on non-objects (the merge
in `state.js` only ever assigns into objects). -/
def objSet : JVal → String → JVal → JVal
  | .ocons k2 v2 rest, k, v =>
      if k2 = k then .ocons k v rest else .ocons k2 v2 (objSet rest k v)
  | .onil, k, v => .ocons k v .onil
  | other, _, _ => other

/-- An array spine as an object with stringified index keys (the result of
spreading an array in an object literal). -/
def arrToIndexedObj (i : Nat) : JVal → JVal
  | .acons h tl => .ocons (toString i) h (arrToIndexedObj (i + 1) tl)
  | _ => .onil

/-- The characters of a string as an object with stringified index keys
(the result of spreading a string). -/
def strToIndexedObj (i : Nat) : List Char → JVal
  | [] => .onil
  | c :: rest => .ocons (toString i) (.str (String.mk [c])) (strToIndexedObj (i + 1) rest)

/-- `(typeof item === 'object' ? { ...item } : item)` from the array branch
of `deepMerge` in `state.js`.  `typeof null` and `typeof` of an array are
both `'object'`; spreading an object copies its fields, spreading an array
yields an object with index keys, spreading null yields an empty object.
Strings, numbers and booleans pass through unchanged. -/
def copyArrayItem : JVal → JVal
  | .ocons k v rest => .ocons k v rest
  | .onil => .onil
  | .acons h tl => arrToIndexedObj 0 (.acons h tl)
  | .anil => .onil
  | .null => .onil
  | v => v

/-- `value.map((item) => ...)` of the array branch: shallow copy of every
element. -/
def arrCopy : JVal → JVal
  | .acons h tl => .acons (copyArrayItem h) (arrCopy tl)
  | other => other

/-- `{ ...(target[key] ?? \x7b\x7d) }` from `deepMerge`: spread of the
current target value (or of the empty object when the key is absent).
Spreading an object keeps its fields; an array or string becomes
index-keyed fields; spreading null, a number or a boolean yields an empty
object. -/
def spreadRecord : Option JVal → JVal
  | some (.ocons k v rest) => .ocons k v rest
  | some .onil => .onil
  | some (.acons h tl) => arrToIndexedObj 0 (.acons h tl)
  | some .anil => .onil
  | some (.str s) => strToIndexedObj 0 s.data
  | some _ => .onil
  | none => .onil

/-- `deepMerge(target, source)` from `state.js`.  The
`for (const key of Object.keys(source))` loop is the recursion along the
source object spine: a non-null, non-array object value recurses into the
spread of the current target value; an array value is shallow-copied
wholesale; every other value (none is `undefined` in this model) is
assigned.  A source that is not an object has no own enumerable string keys
for the primitive values exercised here (`Object.keys` of a number, boolean
or null is empty), so the target is returned unchanged. -/
def deepMerge : JVal → JVal → JVal
  | target, .onil => target
  | target, .ocons k .onil rest =>
      deepMerge (objSet target k (deepMerge (spreadRecord (objGet target k)) .onil)) rest
  | target, .ocons k (.ocons k2 v2 r2) rest =>
      deepMerge
        (objSet target k (deepMerge (spreadRecord (objGet target k)) (.ocons k2 v2 r2))) rest
  | target, .ocons k .anil rest => deepMerge (objSet target k (arrCopy .anil)) rest
  | target, .ocons k (.acons h tl) rest =>
      deepMerge (objSet target k (arrCopy (.acons h tl))) rest
  | target, .ocons k .null rest => deepMerge (objSet target k .null) rest
  | target, .ocons k (.bool b) rest => deepMerge (objSet target k (.bool b)) rest
  | target, .ocons k (.num q) rest => deepMerge (objSet target k (.num q)) rest
  | target, .ocons k (.str s) rest => deepMerge (objSet target k (.str s)) rest
  | target, .null => target
  | target, .bool _ => target
  | target, .num _ => target
  | target, .str _ => target
  | target, .anil => target
  | target, .acons _ _ => target

/-- `structuredClone` — a deep copy, the identity in a pure value model. -/
def cloneState (s : JVal) : JVal := s

/-- `defaultState` from `state.js`.  The module computes `random.seed` from
`Math.random()` at load time; it is a parameter here. -/
def defaultState (seed : Int) : JVal :=
  ofObj
    [("canvas", ofObj [("width", .num 1920), ("height", .num 1080), ("previewScale", .num 0.5)]),
     ("color", ofObj [("hue", .num 210), ("saturation", .num 0.55), ("lightness", .num 0.45),
       ("gamma", .num 1.0)]),
     ("gradient", ofObj
       [("type", .str "radial"), ("mode", .str "continuous"), ("angle", .num 45),
        ("center", ofObj [("x", .num 0.5), ("y", .num 0.5)]), ("scale", .num 1.0),
        ("stops", ofArr
          [ofObj [("pos", .num 0.0), ("hueShift", .num 0.0), ("lightnessDelta", .num 0.0),
             ("opacity", .num 1.0)],
           ofObj [("pos", .num 1.0), ("hueShift", .num 30.0), ("lightnessDelta", .num 0.25),
             ("opacity", .num 0.6)]]),
        ("blend", .str "overlay")]),
     ("grain", ofObj
       [("amount", .num 35), ("size", .str "normal"), ("algorithm", .str "fbm"),
        ("octaves", .num 4), ("lacunarity", .num 2.0), ("gain", .num 0.5),
        ("chroma", ofObj [("enabled", .bool true), ("intensity", .num 0.08)]),
        ("intensityCurve", .str "s-curve"), ("protectShadows", .num 0.05)]),
     ("vignette", ofObj
       [("strength", .num 0.4), ("radius", .num 0.8), ("feather", .num 0.6),
        ("roundness", .num 1.0), ("mode", .str "multiply")]),
     ("random", ofObj [("seed", .num (seed : Rat))]),
     ("output", ofObj [("format", .str "png"), ("jpgQuality", .num 0.92),
       ("embedMetadata", .bool true)])]

/-- `normalizeState(raw)` from `state.js`: deep merge of the raw input onto
a clone of the defaults.  `raw ?? \x7b\x7d` replaces a null input by an
empty object. -/
def normalizeState (seed : Int) (raw : JVal) : JVal :=
  deepMerge (cloneState (defaultState seed))
    (match raw with
     | .null => .onil
     | r => r)

/-- `serializeState` is `JSON.stringify`.  The wire string is represented by
the JSON value it denotes: for acyclic JSON data with finite numbers,
ECMA-262 guarantees that `JSON.parse(JSON.stringify(v))` recovers `v`
exactly, so the stringify/parse builtin pair is modelled as the identity on
`JVal` and the string is identified with its parse. -/
def serializeState (state : JVal) : JVal := state

/-- `JSON.parse` applied to a string produced by `serializeState`; always
succeeds and recovers the serialized value (see `serializeState`). -/
def jsParse (wire : JVal) : Option JVal := some wire

/-- `deserializeState(str)` from `state.js`: parse, then normalize; a parse
failure falls back to a clone of the defaults. -/
def deserializeState (seed : Int) (wire : JVal) : JVal :=
  match jsParse wire with
  | some v => normalizeState seed v
  | none => cloneState (defaultState seed)

/-- `encodeStateToUrl` from `state.js`: UTF-8 then base64 (`btoa`) with the
trailing `=` padding stripped.  Both transforms are injective and reversed
exactly by `decodeStateFromUrl` (`atob` accepts unpadded input), so the
encoded hash is likewise represented by the JSON value it denotes. -/
def encodeStateToUrl (state : JVal) : JVal := serializeState state

/-- `decodeStateFromUrl(hash)` from `state.js`.  An empty hash (`!hash`) is
modelled as `none` and yields null; otherwise the base64/UTF-8/JSON decode
of a value produced by `encodeStateToUrl` succeeds and the result is
normalized. -/
def decodeStateFromUrl (seed : Int) (hash : Option JVal) : Option JVal :=
  match hash with
  | none => none
  | some wire => some (normalizeState seed wire)

/-- Rendering of a JSON value as a text fingerprint; stands in for the
base64 string produced by `stateFingerprint` (equal states give equal
strings). -/
def JVal.render : JVal → String
  | .null => "null"
  | .bool b => toString b
  | .num q => toString q
  | .str s => "s:" ++ s
  | .anil => "a."
  | .acons h tl => "a:" ++ h.render ++ ";" ++ tl.render
  | .onil => "o."
  | .ocons k v tl => "o:" ++ k ++ "=" ++ v.render ++ ";" ++ tl.render

/-- `stateFingerprint(state)` from `state.js` — the URL encoding of the
state, used as an equality key; modelled as a textual rendering. -/
def stateFingerprint (state : JVal) : String :=
  JVal.render (encodeStateToUrl state)

/-! ### Fully-defaulted snapshots

A record capturing exactly the shape of `defaultState`: every schema field
present with a value of its schema type.  `Snapshot.toJson` rebuilds the
JSON object in the key order of `defaultState`. -/

structure GradientStop where
  pos : Rat
  hueShift : Rat
  lightnessDelta : Rat
  opacity : Rat

structure Snapshot where
  width : Rat
  height : Rat
  previewScale : Rat
  hue : Rat
  saturation : Rat
  lightness : Rat
  gamma : Rat
  gtype : String
  gmode : String
  angle : Rat
  centerX : Rat
  centerY : Rat
  scale : Rat
  stops : List GradientStop
  blend : String
  amount : Rat
  gsize : String
  galgorithm : String
  octaves : Int
  lacunarity : Rat
  ggain : Rat
  chromaEnabled : Bool
  chromaIntensity : Rat
  intensityCurve : String
  protectShadows : Rat
  vstrength : Rat
  vradius : Rat
  vfeather : Rat
  vroundness : Rat
  vmode : String
  seed : Int
  format : String
  jpgQuality : Rat
  embedMetadata : Bool

def GradientStop.toJson (st : GradientStop) : JVal :=
  ofObj [("pos", .num st.pos), ("hueShift", .num st.hueShift),
    ("lightnessDelta", .num st.lightnessDelta), ("opacity", .num st.opacity)]

def Snapshot.toJson (s : Snapshot) : JVal :=
  ofObj
    [("canvas", ofObj [("width", .num s.width), ("height", .num s.height),
       ("previewScale", .num s.previewScale)]),
     ("color", ofObj [("hue", .num s.hue), ("saturation", .num s.saturation),
       ("lightness", .num s.lightness), ("gamma", .num s.gamma)]),
     ("gradient", ofObj
       [("type", .str s.gtype), ("mode", .str s.gmode), ("angle", .num s.angle),
        ("center", ofObj [("x", .num s.centerX), ("y", .num s.centerY)]),
        ("scale", .num s.scale),
        ("stops", ofArr (s.stops.map GradientStop.toJson)),
        ("blend", .str s.blend)]),
     ("grain", ofObj
       [("amount", .num s.amount), ("size", .str s.gsize), ("algorithm", .str s.galgorithm),
        ("octaves", .num (s.octaves : Rat)), ("lacunarity", .num s.lacunarity),
        ("gain", .num s.ggain),
        ("chroma", ofObj [("enabled", .bool s.chromaEnabled),
          ("intensity", .num s.chromaIntensity)]),
        ("intensityCurve", .str s.intensityCurve), ("protectShadows", .num s.protectShadows)]),
     ("vignette", ofObj
       [("strength", .num s.vstrength), ("radius", .num s.vradius),
        ("feather", .num s.vfeather), ("roundness", .num s.vroundness),
        ("mode", .str s.vmode)]),
     ("random", ofObj [("seed", .num (s.seed : Rat))]),
     ("output", ofObj [("format", .str s.format), ("jpgQuality", .num s.jpgQuality),
       ("embedMetadata", .bool s.embedMetadata)])]

/-- The default snapshot, as a record. -/
def defaultSnapshot (seed : Int) : Snapshot where
  width := 1920
  height := 1080
  previewScale := 0.5
  hue := 210
  saturation := 0.55
  lightness := 0.45
  gamma := 1.0
  gtype := "radial"
  gmode := "continuous"
  angle := 45
  centerX := 0.5
  centerY := 0.5
  scale := 1.0
  stops := [⟨0.0, 0.0, 0.0, 1.0⟩, ⟨1.0, 30.0, 0.25, 0.6⟩]
  blend := "overlay"
  amount := 35
  gsize := "normal"
  galgorithm := "fbm"
  octaves := 4
  lacunarity := 2.0
  ggain := 0.5
  chromaEnabled := true
  chromaIntensity := 0.08
  intensityCurve := "s-curve"
  protectShadows := 0.05
  vstrength := 0.4
  vradius := 0.8
  vfeather := 0.6
  vroundness := 1.0
  vmode := "multiply"
  seed := seed
  format := "png"
  jpgQuality := 0.92
  embedMetadata := true

/-! ## Preset manager history (`src/static/js/presets.js`) -/

structure HistoryEntry where
  label : String
  fingerprint : String
  state : JVal
  detail : String
  timestamp : Rat

/-- `PresetManager.addHistory(label, state, metadata)`: compute the state
fingerprint; if an entry with the same fingerprint exists the list is
unchanged; otherwise a new entry is unshifted onto the front and, when the
length then exceeds 12, the last (oldest) entry is popped. -/
def addHistory (history : List HistoryEntry) (label : String) (state : JVal)
    (detail : String) (timestamp : Rat) : List HistoryEntry :=
  let fp := stateFingerprint state
  if history.any (fun item => item.fingerprint = fp) then history
  else
    let entry : HistoryEntry := ⟨label, fp, cloneState state, detail, timestamp⟩
    let unshifted := entry :: history
    if unshifted.length > 12 then unshifted.dropLast else unshifted

/-- `PresetManager.removeHistory(fingerprint)`: keep the entries whose
fingerprint differs. -/
def removeHistory (history : List HistoryEntry) (fp : String) : List HistoryEntry :=
  history.filter (fun item => item.fingerprint ≠ fp)

/-- The entry `addHistory` constructs for a state (label, fingerprint, deep
copy of the state, metadata). -/
def historyEntryOf (label : String) (state : JVal) (detail : String) (ts : Rat) : HistoryEntry :=
  ⟨label, stateFingerprint state, cloneState state, detail, ts⟩

/-! ## CPU noise library (`noise.js`)

`hashInt` mixes its integer inputs with JavaScript 32-bit bitwise operators.
The multiplications are modelled exactly over `Int`; `x >>> k` converts to an
unsigned 32-bit integer before shifting and `x ^ y` converts both operands to
32-bit integers (the float64 rounding JavaScript applies to products above
2^53 is idealized away — the downstream claims depend only on the final
unsigned-32-bit reduction). -/

def toUint32 (x : Int) : Nat := (x % 4294967296).toNat

def toInt32 (x : Int) : Int :=
  let u := toUint32 x
  if u < 2147483648 then (u : Int) else (u : Int) - 4294967296

/-- JavaScript `a ^ b` on numbers. -/
def jsXor (a b : Int) : Int := toInt32 (Nat.xor (toUint32 a) (toUint32 b))

/-- JavaScript `a >>> k` on numbers (result is unsigned). -/
def jsShru (a : Int) (k : Nat) : Nat := toUint32 a >>> k

/-- The integer pipeline of `hashInt(x, y, seed)` before the final division:
an unsigned 32-bit value. -/
def hashIntNat (x y seed : Int) : Nat :=
  let h0 : Int := x * 374761393 + y * 668265263 + seed * 362437
  let h1 : Int := jsXor h0 (jsShru h0 13) * 1274126177
  toUint32 (jsXor h1 (jsShru h1 16))

noncomputable section

open Real

/-- `hashInt(x, y, seed)` from `noise.js`: mixed 32-bit hash divided by
4294967295. -/
noncomputable def hashInt (x y seed : Int) : ℝ := (hashIntNat x y seed : ℝ) / 4294967295

/-- `clamp(value, min, max)` from `state.js`/`utils.js`. -/
noncomputable def clampR (value lo hi : ℝ) : ℝ := min (max value lo) hi

noncomputable def clamp01 (value : ℝ) : ℝ := clampR value 0 1

noncomputable def lerp (a b t : ℝ) : ℝ := a + (b - a) * t

/-- `smoothstep(t)` from `noise.js` (the single-argument easing). -/
noncomputable def sstep (t : ℝ) : ℝ := t * t * (3 - 2 * t)

/-- JavaScript `Math.floor` as an integer. -/
noncomputable def jfloor (x : ℝ) : Int := ⌊x⌋

/-- `randomGradient(ix, iy, seed)` from `noise.js`. -/
noncomputable def randomGradient (ix iy seed : Int) : ℝ × ℝ :=
  let angle := hashInt ix iy seed * (2 * π)
  (Real.cos angle, Real.sin angle)

/-- `valueNoise2D(x, y, seed)` from `noise.js`. -/
noncomputable def valueNoise2D (x y : ℝ) (seed : Int) : ℝ :=
  let x0 := jfloor x
  let y0 := jfloor y
  let tx := x - (x0 : ℝ)
  let ty := y - (y0 : ℝ)
  let v00 := hashInt x0 y0 seed
  let v10 := hashInt (x0 + 1) y0 seed
  let v01 := hashInt x0 (y0 + 1) seed
  let v11 := hashInt (x0 + 1) (y0 + 1) seed
  let sx := sstep tx
  let sy := sstep ty
  let ix0 := lerp v00 v10 sx
  let ix1 := lerp v01 v11 sx
  lerp ix0 ix1 sy

/-- `gradientNoise2D(x, y, seed)` from `noise.js`. -/
noncomputable def gradientNoise2D (x y : ℝ) (seed : Int) : ℝ :=
  let x0 := jfloor x
  let y0 := jfloor y
  let x1 := x0 + 1
  let y1 := y0 + 1
  let tx := x - (x0 : ℝ)
  let ty := y - (y0 : ℝ)
  let grad00 := randomGradient x0 y0 seed
  let grad10 := randomGradient x1 y0 seed
  let grad01 := randomGradient x0 y1 seed
  let grad11 := randomGradient x1 y1 seed
  let sx := sstep tx
  let sy := sstep ty
  let dot00 := grad00.1 * tx + grad00.2 * ty
  let dot10 := grad10.1 * (tx - 1) + grad10.2 * ty
  let dot01 := grad01.1 * tx + grad01.2 * (ty - 1)
  let dot11 := grad11.1 * (tx - 1) + grad11.2 * (ty - 1)
  let ix0 := lerp dot00 dot10 sx
  let ix1 := lerp dot01 dot11 sx
  let value := lerp ix0 ix1 sy
  clamp01 (0.5 + value * 0.5)

/-- `simplexCorner(ix, iy, x, y, seed)` from `noise.js`. -/
noncomputable def simplexCorner (ix iy : Int) (x y : ℝ) (seed : Int) : ℝ :=
  let t := 0.5 - x * x - y * y
  if t ≤ 0 then 0
  else
    let grad := randomGradient ix iy seed
    let d := grad.1 * x + grad.2 * y
    (t * t * t * t) * d

/-- `simplexNoise2D(x, y, seed)` from `noise.js`. -/
noncomputable def simplexNoise2D (x y : ℝ) (seed : Int) : ℝ :=
  let f2 : ℝ := 0.3660254037844386
  let g2 : ℝ := 0.21132486540518713
  let s := (x + y) * f2
  let i := jfloor (x + s)
  let j := jfloor (y + s)
  let t := ((i + j : Int) : ℝ) * g2
  let x0 := x - ((i : ℝ) - t)
  let y0 := y - ((j : ℝ) - t)
  let i1 : Int := if x0 > y0 then 1 else 0
  let j1 : Int := if x0 > y0 then 0 else 1
  let x1 := x0 - (i1 : ℝ) + g2
  let y1 := y0 - (j1 : ℝ) + g2
  let x2 := x0 - 1 + 2 * g2
  let y2 := y0 - 1 + 2 * g2
  let n0 := simplexCorner i j x0 y0 seed
  let n1 := simplexCorner (i + i1) (j + j1) x1 y1 seed
  let n2 := simplexCorner (i + 1) (j + 1) x2 y2 seed
  let value := 70 * (n0 + n1 + n2)
  clamp01 (0.5 + value * 0.5)

/-- The 3×3 cell scan of `worleyNoise2D`, written as a fold over the offsets
`(dy, dx)` in the loop order of the source. -/
noncomputable def worleyMinDist (x y : ℝ) (xi yi : Int) (seed : Int) : ℝ :=
  [(-1, -1), (-1, 0), (-1, 1), (0, -1), (0, 0), (0, 1), (1, -1), (1, 0), (1, 1)].foldl
    (fun minDist (d : Int × Int) =>
      let cellX := xi + d.2
      let cellY := yi + d.1
      let px := (cellX : ℝ) + hashInt cellX cellY seed - 0.5
      let py := (cellY : ℝ) + hashInt cellX cellY (seed + 97) - 0.5
      let dist := Real.sqrt ((px - x) ^ 2 + (py - y) ^ 2)
      if dist < minDist then dist else minDist) 1

/-- `worleyNoise2D(x, y, seed)` from `noise.js`. -/
noncomputable def worleyNoise2D (x y : ℝ) (seed : Int) : ℝ :=
  let normalized := clamp01 (worleyMinDist x y (jfloor x) (jfloor y) seed * 1.25)
  clamp01 (Real.exp (-3 * normalized))

/-- The 8×8 Bayer matrix `BAYER_8` from `noise.js`, indexed row-first. -/
def bayer8 (row col : Nat) : Nat :=
  [[0, 48, 12, 60, 3, 51, 15, 63],
   [32, 16, 44, 28, 35, 19, 47, 31],
   [8, 56, 4, 52, 11, 59, 7, 55],
   [40, 24, 36, 20, 43, 27, 39, 23],
   [2, 50, 14, 62, 1, 49, 13, 61],
   [34, 18, 46, 30, 33, 17, 45, 29],
   [10, 58, 6, 54, 9, 57, 5, 53],
   [42, 26, 38, 22, 41, 25, 37, 21]].getD row [] |>.getD col 0

/-- `(n % 8 + 8) % 8` for a JavaScript integer. -/
def jsMod8 (n : Int) : Nat := ((n % 8 + 8) % 8).toNat

/-- `blueNoise2D(x, y, seed)` from `noise.js`. -/
noncomputable def blueNoise2D (x y : ℝ) (seed : Int) : ℝ :=
  let xi := jfloor x
  let yi := jfloor y
  let matrixValue := (bayer8 (jsMod8 xi) (jsMod8 yi) : ℝ) / 64
  let jitter := hashInt xi yi seed * 0.15 - 0.075
  clamp01 (matrixValue + jitter)

/-- `paperFiberNoise2D(x, y, seed)` from `noise.js`. -/
noncomputable def paperFiberNoise2D (x y : ℝ) (seed : Int) : ℝ :=
  let fiber := Real.sin (y * (2 * π) * 0.5 + hashInt (jfloor x) (jfloor y) seed * (2 * π)) * 0.5 + 0.5
  let grain := valueNoise2D (x * 0.7) (y * 2.1) (seed + 1337)
  clamp01 (fiber * 0.35 + grain * 0.65)

/-- `sampleBaseNoise(algorithm, nx, ny, frequency, seed)` from `noise.js`. -/
noncomputable def sampleBaseNoise (algorithm : String) (nx ny frequency : ℝ) (seed : Int) : ℝ :=
  let x := nx * frequency
  let y := ny * frequency
  match algorithm with
  | "gaussian" =>
      let h := hashInt (jfloor x) (jfloor y) seed
      let u1 := if h = 0 then 1e-6 else h
      let u2 := hashInt (jfloor x) (jfloor y) (seed + 19)
      let z := Real.sqrt (-2 * Real.log u1) * Real.cos (2 * π * u2)
      clamp01 (0.5 + z * 0.18)
  | "value" => valueNoise2D x y seed
  | "perlin" => gradientNoise2D x y seed
  | "fbm" =>
      let base := gradientNoise2D x y seed
      let ridged := 1 - |base * 2 - 1|
      clamp01 (base * 0.6 + ridged * 0.4)
  | "simplex" => simplexNoise2D x y (seed + 71)
  | "blue-noise" => blueNoise2D x y (seed + 811)
  | "poisson-stipple" => worleyNoise2D x y (seed + 409)
  | "paper-fiber" => paperFiberNoise2D x y (seed + 997)
  | _ => hashInt (jfloor (x * 4096)) (jfloor (y * 4096)) (seed + 53)

/-- `applyIntensityCurve(value, curve)` from `noise.js`. -/
noncomputable def applyIntensityCurve (value : ℝ) (curve : String) : ℝ :=
  match curve with
  | "log" => Real.log (1 + value * 9) / Real.log 10
  | "s-curve" => 0.5 - Real.cos (value * π) / 2
  | _ => value

/-- `sizeToFrequency(size)` from `noise.js`. -/
def sizeToFrequency (size : String) : Rat :=
  match size with
  | "fine" => 12
  | "coarse" => 4
  | _ => 8

end

/-! ## `generateGrainData` (`noise.js`) -/

/-- The optional-field grain section as `generateGrainData` receives it
(every read in the source is guarded by `??` or `?.`). -/
structure ChromaState where
  enabled : Option Bool := none
  intensity : Option ℝ := none

structure GrainState where
  enabled : Option Bool := none
  amount : Option ℝ := none
  size : Option String := none
  algorithm : Option String := none
  octaves : Option ℝ := none
  lacunarity : Option ℝ := none
  gain : Option ℝ := none
  chroma : Option ChromaState := none
  intensityCurve : Option String := none
  protectShadows : Option ℝ := none

/-- A generated grain tile: dimensions plus the RGBA bytes at each pixel
(the `Uint8ClampedArray` content, addressed by coordinate). -/
structure GrainImage where
  width : Nat
  height : Nat
  px : Nat → Nat → Nat × Nat × Nat × Nat

noncomputable section

open Real

/-- JavaScript `Math.round` for the non-negative values written to the pixel
buffer. -/
noncomputable def jround (x : ℝ) : Nat := (⌊x + 0.5⌋).toNat

/-- The per-octave accumulation loop inside `generateGrainData`
(`for (let octave = 0; octave < octaves; ...)`): running
`(sum, amplitudeSum)` with `frequency *= lacunarity` and
`amplitude *= gain` after each octave, sampling at seed offset
`seed + octave * 131`.  The first argument is the number of remaining
octaves, the second the current octave index. -/
noncomputable def octaveLoop (algorithm : String) (nx ny : ℝ) (seed : Int)
    (lacunarity gain : ℝ) :
    Nat → Nat → ℝ → ℝ → ℝ → ℝ → ℝ × ℝ
  | 0, _i, _freq, _amp, sum, ampSum => (sum, ampSum)
  | n + 1, i, freq, amp, sum, ampSum =>
      let sample := sampleBaseNoise algorithm nx ny freq (seed + (i : Int) * 131)
      octaveLoop algorithm nx ny seed lacunarity gain n (i + 1) (freq * lacunarity)
        (amp * gain) (sum + sample * amp) (ampSum + amp)

/-- The normalized multi-octave value of one pixel of `generateGrainData`,
before the intensity curve:
`value = amplitudeSum > 0 ? sum / amplitudeSum : 0.5`. -/
noncomputable def grainValue (algorithm : String) (nx ny : ℝ) (freqBase lacunarity gain : ℝ)
    (seed : Int) (octaves : Nat) : ℝ :=
  let acc := octaveLoop algorithm nx ny seed lacunarity gain octaves 0 freqBase 1 0 0
  if acc.2 > 0 then acc.1 / acc.2 else 0.5

/-- The RGBA bytes of one pixel of `generateGrainData` (the body of the
`x`/`y` loops), given the resolved parameters. -/
noncomputable def grainPixel (algorithm intensityCurve : String) (octaves : Nat)
    (freqBase lacunarity gain amplitudeBase base chromaIntensity protectShadows : ℝ)
    (chromaEnabled : Bool) (seed : Int) (width height x y : Nat) :
    Nat × Nat × Nat × Nat :=
  let nx : ℝ := if 1 < width then (x : ℝ) / ((width : ℝ) - 1) else 0
  let ny : ℝ := if 1 < height then (y : ℝ) / ((height : ℝ) - 1) else 0
  let value := applyIntensityCurve
    (clamp01 (grainValue algorithm nx ny freqBase lacunarity gain seed octaves))
    intensityCurve
  let shadowFactor := if 0 < protectShadows ∧ base < protectShadows
    then clamp01 (base / protectShadows) else 1
  let centered := value - 0.5
  let amplitudeScaled := amplitudeBase * (0.6 + 0.4 * value) * shadowFactor
  let neutral := clamp01 (0.5 + centered * amplitudeScaled * 2)
  let rgb :=
    if chromaEnabled ∧ 0 < chromaIntensity then
      let hueSample := sampleBaseNoise "uniform" (nx + 1.37) (ny + 3.11)
        (freqBase * 0.75 + 1) (seed + 911)
      let angle := hueSample * (2 * π)
      let chromaAmount := chromaIntensity * amplitudeBase * shadowFactor * 2
      (clamp01 (neutral + Real.cos angle * chromaAmount),
       clamp01 (neutral + Real.cos (angle + 2 * π / 3) * chromaAmount),
       clamp01 (neutral + Real.cos (angle + 2 * (2 * π) / 3) * chromaAmount))
    else (neutral, neutral, neutral)
  let alpha := clamp01 (0.3 + amplitudeScaled * 0.9)
  (jround (rgb.1 * 255), jround (rgb.2.1 * 255), jround (rgb.2.2 * 255), jround (alpha * 255))

/-- `generateGrainData(width, height, grainState, baseLightness, seed)` from
`noise.js`: null when the grain section is missing, disabled, or has a
clamped amount of zero; otherwise the tile of grain pixels. -/
noncomputable def generateGrainData (width height : Nat) (grainState : Option GrainState)
    (baseLightness : ℝ) (seed : Int) : Option GrainImage :=
  match grainState with
  | none => none
  | some g =>
      if g.enabled = some false then none
      else
        let amount := clampR (g.amount.getD 0) 0 100
        if amount ≤ 0 then none
        else
          let algorithm := g.algorithm.getD "uniform"
          let size := g.size.getD "normal"
          let octaves := (max 1 ⌊g.octaves.getD 1⌋).toNat
          let lacunarity := clampR (g.lacunarity.getD 2) 1 4
          let gain := clampR (g.gain.getD 0.5) 0.1 1
          let intensityCurve := g.intensityCurve.getD "linear"
          let chromaEnabled := (g.chroma.bind (fun c => c.enabled)).getD false
          let chromaIntensity := clampR ((g.chroma.bind (fun c => c.intensity)).getD 0) 0 0.5
          let protectShadows := clampR (g.protectShadows.getD 0) 0 0.4
          let frequencyBase := ((sizeToFrequency size : Rat) : ℝ)
          let amplitudeBase := amount / 100
          let base := clampR baseLightness 0 1
          some ⟨width, height, fun x y =>
            grainPixel algorithm intensityCurve octaves frequencyBase lacunarity gain
              amplitudeBase base chromaIntensity protectShadows chromaEnabled seed
              width height x y⟩

end

/-! ## WebGL fragment shader (`src/static/js/webgl/shaders.js`)

The per-pixel pipeline of `createFragmentShaderSource`, modelled over the
reals.  GLSL floats are idealized as exact reals; `uint` arithmetic is
modelled exactly modulo 2^32. -/

/-- One gradient stop as uploaded to `uStopPositions[i]` /
`uStopAdjustments[i]` (position, hue shift, lightness delta, opacity). -/
structure GStop where
  pos : ℝ
  hueShift : ℝ
  lightnessDelta : ℝ
  opacity : ℝ

/-- The shader uniforms.  `stops` holds the first `uGradientStopCount`
entries of the stop arrays. -/
structure Uniforms where
  resolution : ℝ × ℝ
  previewOffset : ℝ × ℝ
  previewZoom : ℝ
  hue : ℝ
  saturation : ℝ
  lightness : ℝ
  gamma : ℝ
  shaderVariant : Int
  shaderStrength : ℝ
  gradientType : Int
  gradientMode : Int
  gradientAngle : ℝ
  gradientCenter : ℝ × ℝ
  gradientScale : ℝ
  gradientBaseHue : ℝ
  gradientBaseSaturation : ℝ
  gradientBaseLightness : ℝ
  stops : List GStop
  blendMode : Int
  noiseAmount : ℝ
  noiseSize : Int
  noiseAlgorithm : Int
  noiseOctaves : Int
  noiseLacunarity : ℝ
  noiseGain : ℝ
  chromaEnabled : Bool
  chromaIntensity : ℝ
  intensityCurve : Int
  protectShadows : ℝ
  seed : ℝ
  time : ℝ
  blueNoiseTex : ℝ × ℝ → ℝ
  hasBlueNoise : Bool
  vignetteStrength : ℝ
  vignetteRadius : ℝ
  vignetteFeather : ℝ
  vignetteRoundness : ℝ
  vignetteMode : Int
  applyDither : Bool

/-- An RGB color (or any vec3). -/
abbrev V3 := ℝ × ℝ × ℝ

/-- `hash_u32` from the fragment shader, on unsigned 32-bit values. -/
def hashU32 (x : Nat) : Nat :=
  let x1 := (x + 0x9e3779b9) % 4294967296
  let x2 := Nat.xor x1 (x1 >>> 15) * (1 ||| x1) % 4294967296
  let x3 := Nat.xor x2 ((x2 + (x2 <<< 7) % 4294967296) % 4294967296)
  Nat.xor x3 (x3 >>> 14)

noncomputable section

open Real

/-- GLSL `mix`. -/
noncomputable def glMix (x y a : ℝ) : ℝ := x * (1 - a) + y * a

/-- GLSL `smoothstep`. -/
noncomputable def glSmoothstep (e0 e1 x : ℝ) : ℝ :=
  let t := clampR ((x - e0) / (e1 - e0)) 0 1
  t * t * (3 - 2 * t)

/-- GLSL `fract`. -/
noncomputable def glFract (x : ℝ) : ℝ := x - ⌊x⌋

/-- GLSL `mod(x, y)`. -/
noncomputable def glMod (x y : ℝ) : ℝ := x - y * ⌊x / y⌋

/-- GLSL `sign`. -/
noncomputable def glSign (x : ℝ) : ℝ := if 0 < x then 1 else if x < 0 then -1 else 0

/-- GLSL `length` of a vec2. -/
noncomputable def glLength2 (v : ℝ × ℝ) : ℝ := Real.sqrt (v.1 ^ 2 + v.2 ^ 2)

/-- GLSL `normalize` of a vec2 (undefined at zero; the model divides by
zero, which Lean evaluates to zero — the pipeline only ever multiplies the
result with a vanishing factor there). -/
noncomputable def glNormalize2 (v : ℝ × ℝ) : ℝ × ℝ :=
  (v.1 / glLength2 v, v.2 / glLength2 v)

noncomputable def dot2 (a b : ℝ × ℝ) : ℝ := a.1 * b.1 + a.2 * b.2

noncomputable def dot3 (a b : V3) : ℝ := a.1 * b.1 + a.2.1 * b.2.1 + a.2.2 * b.2.2

noncomputable def add3 (a b : V3) : V3 := (a.1 + b.1, a.2.1 + b.2.1, a.2.2 + b.2.2)

noncomputable def mul3 (a b : V3) : V3 := (a.1 * b.1, a.2.1 * b.2.1, a.2.2 * b.2.2)

noncomputable def smul3 (c : ℝ) (a : V3) : V3 := (c * a.1, c * a.2.1, c * a.2.2)

noncomputable def addS3 (a : V3) (c : ℝ) : V3 := (a.1 + c, a.2.1 + c, a.2.2 + c)

noncomputable def mix3 (x y : V3) (a : ℝ) : V3 :=
  (glMix x.1 y.1 a, glMix x.2.1 y.2.1 a, glMix x.2.2 y.2.2 a)

noncomputable def clamp3 (v : V3) (lo hi : ℝ) : V3 :=
  (clampR v.1 lo hi, clampR v.2.1 lo hi, clampR v.2.2 lo hi)

/-- Componentwise GLSL `pow` (`Real.rpow`). -/
noncomputable def pow3 (v : V3) (e : ℝ) : V3 := (v.1 ^ e, v.2.1 ^ e, v.2.2 ^ e)

/-- GLSL `uint(f)`: truncation of a non-negative float (undefined for
negative input; the model sends those to zero). -/
noncomputable def uintOfFloat (r : ℝ) : Nat := (⌊r⌋).toNat

/-- `rand_u(co, seed)` from the fragment shader. -/
noncomputable def randU (co : ℝ × ℝ) (seed : ℝ) : ℝ :=
  (hashU32 (Nat.xor (uintOfFloat (co.1 * 16384 + co.2 * 8192)) (uintOfFloat seed)) : ℝ)
    * (1 / 4294967296)

/-- `hsl2rgb` from the fragment shader. -/
noncomputable def hsl2rgbGl (hsl : V3) : V3 :=
  let h := glMod hsl.1 1
  let s := clampR hsl.2.1 0 1
  let l := clampR hsl.2.2 0 1
  let c := (1 - |2 * l - 1|) * s
  let hp := h * 6
  let x := c * (1 - |glMod hp 2 - 1|)
  let rgb : V3 :=
    if hp < 1 then (c, x, 0)
    else if hp < 2 then (x, c, 0)
    else if hp < 3 then (0, c, x)
    else if hp < 4 then (0, x, c)
    else if hp < 5 then (x, 0, c)
    else (c, 0, x)
  let m := l - 0.5 * c
  addS3 rgb m

/-- `smoothNoise(uv, seed)` from the fragment shader. -/
noncomputable def smoothNoiseGl (uv : ℝ × ℝ) (seed : ℝ) : ℝ :=
  let i : ℝ × ℝ := (⌊uv.1⌋, ⌊uv.2⌋)
  let f : ℝ × ℝ := (glFract uv.1, glFract uv.2)
  let a := randU i seed
  let b := randU (i.1 + 1, i.2) seed
  let c := randU (i.1, i.2 + 1) seed
  let d := randU (i.1 + 1, i.2 + 1) seed
  let ux := f.1 * f.1 * (3 - 2 * f.1)
  let uy := f.2 * f.2 * (3 - 2 * f.2)
  glMix (glMix a b ux) (glMix c d ux) uy

/-- `fade(t)` from the fragment shader, one component. -/
noncomputable def fadeGl (t : ℝ) : ℝ := t * t * t * (t * (t * 6 - 15) + 10)

/-- `gradient(hash, p)` from the fragment shader. -/
noncomputable def gradientGl (hash p : ℝ × ℝ) : ℝ :=
  let h : ℝ × ℝ := (hash.1 * 2 - 1, hash.2 * 2 - 1)
  dot2 (glNormalize2 h) p

/-- `perlin(p, seed)` from the fragment shader. -/
noncomputable def perlinGl (p : ℝ × ℝ) (seed : ℝ) : ℝ :=
  let pi' : ℝ × ℝ := (⌊p.1⌋, ⌊p.2⌋)
  let pf : ℝ × ℝ := (glFract p.1, glFract p.2)
  let wx := fadeGl pf.1
  let wy := fadeGl pf.2
  let aa := gradientGl (randU pi' seed, randU (pi'.1 + 0.5, pi'.2 + 0.5) seed) pf
  let ba := gradientGl (randU (pi'.1 + 1, pi'.2) seed, randU (pi'.1 + 1.5, pi'.2) seed)
    (pf.1 - 1, pf.2)
  let ab := gradientGl (randU (pi'.1, pi'.2 + 1) seed, randU (pi'.1, pi'.2 + 1.5) seed)
    (pf.1, pf.2 - 1)
  let bb := gradientGl (randU (pi'.1 + 1, pi'.2 + 1) seed, randU (pi'.1 + 1.5, pi'.2 + 1.5) seed)
    (pf.1 - 1, pf.2 - 1)
  let x1 := glMix aa ba wx
  let x2 := glMix ab bb wx
  glMix x1 x2 wy * 0.5 + 0.5

/-- One corner contribution of the GLSL `simplex` loop body (the `j`-th
iteration with its `pos` and `ij`). -/
noncomputable def simplexCornerGl (ij pos : ℝ × ℝ) (seed : ℝ) : ℝ :=
  let t := 0.5 - dot2 pos pos
  if 0 < t then
    let t2 := t * t
    let g := gradientGl (randU ij seed, randU (ij.1 + 0.4, ij.2 + 0.4) seed) pos
    t2 * t2 * g
  else 0

/-- `simplex(p, seed)` from the fragment shader (the three-iteration loop is
unrolled, as in the compiled shader). -/
noncomputable def simplexGl (p : ℝ × ℝ) (seed : ℝ) : ℝ :=
  let k1 : ℝ := 0.3660254037844386
  let k2 : ℝ := 0.2113248654051871
  let i : ℝ × ℝ := (⌊p.1 + (p.1 + p.2) * k1⌋, ⌊p.2 + (p.1 + p.2) * k1⌋)
  let a : ℝ × ℝ := (p.1 - (i.1 - (i.1 + i.2) * k2), p.2 - (i.2 - (i.1 + i.2) * k2))
  let o : ℝ × ℝ := if a.1 > a.2 then (1, 0) else (0, 1)
  let b : ℝ × ℝ := (a.1 - o.1 + k2, a.2 - o.2 + k2)
  let c : ℝ × ℝ := (a.1 - 1 + 2 * k2, a.2 - 1 + 2 * k2)
  let n := simplexCornerGl i a seed + simplexCornerGl (i.1 + o.1, i.2 + o.2) b seed
    + simplexCornerGl (i.1 + 1, i.2 + 1) c seed
  clampR (0.5 + 40 * n) 0 1

/-- `fbm(p, seed, octaves, lacunarity, gain, useSimplex)` from the fragment
shader: eight-iteration loop with an early break once `i >= octaves`,
accumulating `(sum, amplitude, frequency)` from `(0, 0.5, 1)`. -/
noncomputable def fbmGl (p : ℝ × ℝ) (seed : ℝ) (octaves : Int) (lacunarity gain : ℝ)
    (useSimplex : Bool) : ℝ :=
  ((List.range 8).foldl
    (fun (acc : ℝ × ℝ × ℝ) i =>
      if (i : Int) < octaves then
        let n := if useSimplex
          then simplexGl (p.1 * acc.2.2, p.2 * acc.2.2) (seed + (i : ℝ) * 19.19)
          else perlinGl (p.1 * acc.2.2, p.2 * acc.2.2) (seed + (i : ℝ) * 7.13)
        (acc.1 + acc.2.1 * n, acc.2.1 * gain, acc.2.2 * lacunarity)
      else acc)
    (0, 0.5, 1)).1

/-- `poissonStipple(uv, seed, scale)` from the fragment shader. -/
noncomputable def poissonStippleGl (uv : ℝ × ℝ) (seed scale : ℝ) : ℝ :=
  let grid : ℝ × ℝ := (⌊uv.1 * scale⌋, ⌊uv.2 * scale⌋)
  let cellSeed : ℝ × ℝ := (grid.1 + randU grid seed, grid.2 + randU (grid.1 + 0.5, grid.2 + 0.5) seed)
  let jitter : ℝ × ℝ := (glFract cellSeed.1, glFract cellSeed.2)
  let point : ℝ × ℝ := ((grid.1 + jitter.1) / scale, (grid.2 + jitter.2) / scale)
  let dist := glLength2 (point.1 - uv.1, point.2 - uv.2)
  let radius := 0.5 / scale
  glSmoothstep radius 0 dist

/-- `paperFiber(uv, seed)` from the fragment shader. -/
noncomputable def paperFiberGl (uv : ℝ × ℝ) (seed : ℝ) : ℝ :=
  let dir := glNormalize2 (Real.cos seed, Real.sin seed)
  let fiber := fbmGl (dot2 uv dir * 3, dot2 uv (-dir.2, dir.1) * 3) seed 5 1.9 0.6 true
  let micro := perlinGl (uv.1 * 12, uv.2 * 12) (seed + 42)
  clampR (0.7 * fiber + 0.3 * micro) 0 1

/-- `noiseValue(uv)` from the fragment shader. -/
noncomputable def noiseValueGl (u : Uniforms) (uv : ℝ × ℝ) : ℝ :=
  let scale := glMix 1 3 ((u.noiseSize : ℝ) / 2)
  let p : ℝ × ℝ := (uv.1 * scale * u.previewZoom, uv.2 * scale * u.previewZoom)
  let result :=
    if u.noiseAlgorithm = 0 then
      randU (⌊p.1 * u.resolution.1⌋ / u.resolution.1, ⌊p.2 * u.resolution.2⌋ / u.resolution.2) u.seed
    else if u.noiseAlgorithm = 1 then
      let r1 := randU (p.1 + 1.2, p.2 + 0.7) u.seed
      let r2 := randU (p.1 + 3.4, p.2 + 2.1) (u.seed + 19)
      let z := Real.sqrt (-2 * Real.log (max r1 1e-4)) * Real.cos (2 * π * r2)
      clampR (0.5 + 0.18 * z) 0 1
    else if u.noiseAlgorithm = 2 then smoothNoiseGl (p.1 * 4, p.2 * 4) u.seed
    else if u.noiseAlgorithm = 3 then perlinGl (p.1 * 3, p.2 * 3) u.seed
    else if u.noiseAlgorithm = 4 then
      fbmGl (p.1 * 2, p.2 * 2) u.seed u.noiseOctaves u.noiseLacunarity u.noiseGain false
    else if u.noiseAlgorithm = 5 then
      fbmGl (p.1 * 2, p.2 * 2) u.seed u.noiseOctaves u.noiseLacunarity u.noiseGain true
    else if u.noiseAlgorithm = 6 then
      let bnUV : ℝ × ℝ := (glFract (p.1 * 0.5 + u.seed / 7919), glFract (p.2 * 0.5 + u.seed / 1543))
      if u.hasBlueNoise then u.blueNoiseTex bnUV
      else randU (bnUV.1 * u.resolution.1, bnUV.2 * u.resolution.2) u.seed
    else if u.noiseAlgorithm = 7 then
      poissonStippleGl (glFract (p.1 * 0.5), glFract (p.2 * 0.5)) u.seed 24
    else if u.noiseAlgorithm = 8 then paperFiberGl (p.1 * 0.4, p.2 * 0.4) u.seed
    else 0
  clampR result 0 1

/-- `applyCurve(value)` from the fragment shader. -/
noncomputable def applyCurveGl (u : Uniforms) (value : ℝ) : ℝ :=
  if u.intensityCurve = 1 then Real.log (1 + value * 9) / Real.log 10
  else if u.intensityCurve = 2 then
    let t := clampR value 0 1
    t * t * (3 - 2 * t)
  else clampR value 0 1

/-- GLSL `atan(y, x)`. -/
noncomputable def glAtan2 (y x : ℝ) : ℝ :=
  if 0 < x then Real.arctan (y / x)
  else if x < 0 then (if 0 ≤ y then Real.arctan (y / x) + π else Real.arctan (y / x) - π)
  else if 0 < y then π / 2
  else if y < 0 then -(π / 2)
  else 0

/-- `gradientFactor(uv)` from the fragment shader. -/
noncomputable def gradientFactor (u : Uniforms) (uv : ℝ × ℝ) : ℝ :=
  let centered : ℝ × ℝ := ((uv.1 - u.gradientCenter.1) * u.gradientScale,
    (uv.2 - u.gradientCenter.2) * u.gradientScale)
  if u.gradientType = 0 then 0
  else if u.gradientType = 1 then
    let angle := u.gradientAngle * π / 180
    let dir : ℝ × ℝ := (Real.cos angle, Real.sin angle)
    clampR (0.5 + dot2 centered dir) 0 1
  else if u.gradientType = 2 then clampR (glLength2 centered * 1.414) 0 1
  else if u.gradientType = 3 then
    glMod (glAtan2 centered.2 centered.1 / (2 * π) + 0.5 + u.gradientAngle / 360) 1
  else
    let corner : ℝ × ℝ := (clampR u.gradientCenter.1 0 1, clampR u.gradientCenter.2 0 1)
    let diff : ℝ × ℝ := (uv.1 - corner.1, uv.2 - corner.2)
    clampR (glLength2 diff * 1.2) 0 1

/-- The stop-color resolution shared by the branches of `gradientColor`:
hue shift applied to the gradient base hue, lightness delta to its
lightness. -/
noncomputable def resolveStopHsl (gradientBaseHSL : V3) (s : GStop) : V3 :=
  (gradientBaseHSL.1 + s.hueShift / 360, clampR gradientBaseHSL.2.1 0 1,
   clampR (gradientBaseHSL.2.2 + s.lightnessDelta) 0 1)

/-- The continuous-mode loop of `gradientColor` (`for i = 1 ...` with early
returns), walking the stop list with the previous stop carried along. -/
noncomputable def gradientWalk (t : ℝ) (fillBaseHSL gradientBaseHSL : V3) :
    GStop → List GStop → V3
  | prev, [] =>
      mix3 (hsl2rgbGl fillBaseHSL) (hsl2rgbGl (resolveStopHsl gradientBaseHSL prev))
        (clampR prev.opacity 0 1)
  | prev, next :: rest =>
      if t ≤ prev.pos then
        mix3 (hsl2rgbGl fillBaseHSL) (hsl2rgbGl (resolveStopHsl gradientBaseHSL prev))
          (clampR prev.opacity 0 1)
      else if t ≤ next.pos then
        let segment := clampR ((t - prev.pos) / max (next.pos - prev.pos) 1e-5) 0 1
        let rgbA := hsl2rgbGl (resolveStopHsl gradientBaseHSL prev)
        let rgbB := hsl2rgbGl (resolveStopHsl gradientBaseHSL next)
        let blendW := glMix prev.opacity next.opacity segment
        let eased := glSmoothstep 0 1 segment
        add3 (smul3 (clampR blendW 0 1) (mix3 rgbA rgbB eased))
          (smul3 (1 - clampR blendW 0 1) (hsl2rgbGl fillBaseHSL))
      else gradientWalk t fillBaseHSL gradientBaseHSL next rest

/-- `gradientColor(t, fillBaseHSL, gradientBaseHSL)` from the fragment
shader.  In discrete mode the loop keeps the last stop whose position is at
most `t` (initial adjustment `uStopAdjustments[0]`); in continuous mode it
walks consecutive stop pairs. -/
noncomputable def gradientColor (u : Uniforms) (t : ℝ) (fillBaseHSL gradientBaseHSL : V3) : V3 :=
  if u.stops.length = 0 then hsl2rgbGl gradientBaseHSL
  else if u.gradientMode = 1 then
    let best := u.stops.foldl (fun (best : ℝ × GStop) s => if s.pos ≤ t then (s.pos, s) else best)
      (0, u.stops.headD ⟨0, 0, 0, 0⟩)
    mix3 (hsl2rgbGl fillBaseHSL) (hsl2rgbGl (resolveStopHsl gradientBaseHSL best.2))
      (clampR best.2.opacity 0 1)
  else
    gradientWalk t fillBaseHSL gradientBaseHSL (u.stops.headD ⟨0, 0, 0, 0⟩) u.stops.tail

/-- `blend(base, layer, mode)` from the fragment shader.  The `soft-light`
branch compares the vec3 `base` with `0.5`; the model applies the selection
componentwise. -/
noncomputable def blendGl (base layer : V3) (mode : Int) : V3 :=
  if mode = 0 then mix3 base layer 1
  else if mode = 1 then mix3 base (add3 (mix3 base layer 0.7) (mul3 base layer)) 0.7
  else if mode = 2 then
    let soft : V3 :=
      (if base.1 ≤ 0.5 then 2 * base.1 * layer.1 else 1 - 2 * (1 - base.1) * (1 - layer.1),
       if base.2.1 ≤ 0.5 then 2 * base.2.1 * layer.2.1 else 1 - 2 * (1 - base.2.1) * (1 - layer.2.1),
       if base.2.2 ≤ 0.5 then 2 * base.2.2 * layer.2.2 else 1 - 2 * (1 - base.2.2) * (1 - layer.2.2))
    mix3 base soft 0.8
  else if mode = 3 then
    (1 - (1 - base.1) * (1 - layer.1), 1 - (1 - base.2.1) * (1 - layer.2.1),
     1 - (1 - base.2.2) * (1 - layer.2.2))
  else mix3 base layer 1

/-- `applyShaderVariant(color, gradientT, gradientBaseRGB)` from the
fragment shader. -/
noncomputable def applyShaderVariant (u : Uniforms) (color : V3) (gradientT : ℝ)
    (gradientBaseRGB : V3) : V3 :=
  let strength := clampR u.shaderStrength 0 1
  if u.shaderVariant = 0 ∨ strength ≤ 0.0001 then color
  else if u.shaderVariant = 1 then
    let halo := clampR (1 - gradientT) 0 1 ^ (1.5 : ℝ)
    let glow := mix3 color (add3 gradientBaseRGB (0.2, 0.15, 0.3)) 0.5
    mix3 color (clamp3 glow 0 1) (strength * halo)
  else if u.shaderVariant = 2 then
    let rim := glSmoothstep 0.25 1 gradientT
    let cooled : V3 := (color.1 * 0.75 + 0.05, color.2.1 * 0.85 + 0.05, min (color.2.2 + 0.2) 1)
    mix3 color (clamp3 cooled 0 1) (strength * (0.6 + 0.4 * rim))
  else if u.shaderVariant = 3 then
    let edge := glSmoothstep 0.4 1 gradientT
    let warmed := mix3 (add3 color (0.2, 0.1, -0.05)) (add3 gradientBaseRGB (0.1, 0.05, -0.02)) 0.5
    mix3 color (clamp3 warmed 0 1) (strength * edge)
  else color

/-- `applyVignette(color, uv)` from the fragment shader. -/
noncomputable def applyVignette (u : Uniforms) (color : V3) (uv : ℝ × ℝ) : V3 :=
  let c0 : ℝ × ℝ := ((uv.1 - 0.5) * 1, (uv.2 - 0.5) * (u.resolution.2 / u.resolution.1))
  let centered : ℝ × ℝ := (glSign c0.1 * |c0.1| ^ u.vignetteRoundness,
    glSign c0.2 * |c0.2| ^ u.vignetteRoundness)
  let dist := glLength2 centered / u.vignetteRadius
  let vignette := glSmoothstep (1 - u.vignetteFeather) (1 + u.vignetteFeather) dist
  let strength := clampR u.vignetteStrength 0 1
  if u.vignetteMode = 0 then
    mix3 color (smul3 (1 - strength * vignette) color) strength
  else
    mix3 color (addS3 (smul3 (1 - strength * vignette) color) (strength * vignette * 0.2)) strength

/-- `applyNoise(color, noiseValue)` from the fragment shader. -/
noncomputable def applyNoiseGl (u : Uniforms) (color : V3) (noiseValue : ℝ)
    (fragCoord : ℝ × ℝ) : V3 :=
  let intensity := applyCurveGl u noiseValue * (u.noiseAmount / 100)
  let luminance := dot3 color (0.299, 0.587, 0.114)
  let protect := glSmoothstep 0 u.protectShadows luminance
  let adjusted := glMix intensity (intensity * luminance) protect
  let monochrome := addS3 color (adjusted - 0.5 * adjusted)
  let noised :=
    if u.chromaEnabled then
      let cn : V3 := (randU (fragCoord.1 + 1, fragCoord.2) u.seed * 2 - 1,
        randU (fragCoord.1, fragCoord.2 + 1) (u.seed + 17) * 2 - 1,
        randU (fragCoord.1 + 2, fragCoord.2 + 2) (u.seed + 41) * 2 - 1)
      add3 monochrome (smul3 (u.chromaIntensity * adjusted) cn)
    else addS3 monochrome ((noiseValue - 0.5) * adjusted)
  clamp3 noised 0 1

/-- `bayerDither(uv)` from the fragment shader (the 64-entry matrix is the
same table as `BAYER_8`, row-major). -/
noncomputable def bayerDither (uv : ℝ × ℝ) : ℝ :=
  let x := (⌊glMod (uv.1 * 8) 8⌋).toNat
  let y := (⌊glMod (uv.2 * 8) 8⌋).toNat
  ((bayer8 y x : ℝ) + 0.5) / 64

/-- The untransformed sampling coordinate of `main()`:
`(v_uv - 0.5) / max(uPreviewZoom, 0.001) + 0.5 + uPreviewOffset`. -/
noncomputable def shaderUV (u : Uniforms) (vUV : ℝ × ℝ) : ℝ × ℝ :=
  ((vUV.1 - 0.5) / max u.previewZoom 0.001 + 0.5 + u.previewOffset.1,
   (vUV.2 - 0.5) / max u.previewZoom 0.001 + 0.5 + u.previewOffset.2)

/-- `previewUV = clamp(uv, 0.0, 1.0)` of `main()`. -/
noncomputable def shaderPreviewUV (u : Uniforms) (vUV : ℝ × ℝ) : ℝ × ℝ :=
  let uv := shaderUV u vUV
  (clampR uv.1 0 1, clampR uv.2 0 1)

/-- The pipeline prefix of `main()` before the noise/grain pass: base fill,
gradient pass and shader-variant pass. -/
noncomputable def preNoiseColor (u : Uniforms) (vUV : ℝ × ℝ) : V3 :=
  let previewUV := shaderPreviewUV u vUV
  let baseHSL : V3 := (u.hue / 360, u.saturation, u.lightness)
  let baseColor := hsl2rgbGl baseHSL
  let gradientBaseHSL : V3 := (u.gradientBaseHue / 360, clampR u.gradientBaseSaturation 0 1,
    clampR u.gradientBaseLightness 0 1)
  let gradientT := gradientFactor u previewUV
  let gradientCol := gradientColor u gradientT baseHSL gradientBaseHSL
  let composed0 := blendGl baseColor gradientCol u.blendMode
  applyShaderVariant u composed0 gradientT (hsl2rgbGl gradientBaseHSL)

/-- `main()` of the fragment shader, as a function of the interpolated
`v_uv` and `gl_FragCoord.xy`.  `grainPass = false` is the hypothetical
pipeline with the noise/grain pass skipped (the comparison made by the
specification); `grainPass = true` is the shader as written. -/
noncomputable def shaderPixelAux (grainPass : Bool) (u : Uniforms) (vUV fragCoord : ℝ × ℝ) : V3 :=
  let uv := shaderUV u vUV
  let previewUV := shaderPreviewUV u vUV
  let composed1 := preNoiseColor u vUV
  let n := noiseValueGl u uv
  let composed2 := if grainPass then applyNoiseGl u composed1 n fragCoord else composed1
  let composed3 := applyVignette u composed2 previewUV
  let composed4 :=
    if u.applyDither then addS3 composed3 ((bayerDither fragCoord - 0.5) / 255)
    else composed3
  clamp3 (pow3 composed4 (1 / max u.gamma 0.001)) 0 1

/-- The fragment shader as written (grain pass included). -/
noncomputable def shaderPixel (u : Uniforms) (vUV fragCoord : ℝ × ℝ) : V3 :=
  shaderPixelAux true u vUV fragCoord

/-- The fragment shader with the grain pass skipped entirely. -/
noncomputable def shaderPixelNoGrain (u : Uniforms) (vUV fragCoord : ℝ × ℝ) : V3 :=
  shaderPixelAux false u vUV fragCoord

end

/-! ## Uniform upload (`renderWebGL` in `src/static/js/renderer.js`) -/

/-- JavaScript `Array.prototype.indexOf`: position of the element, `-1` when
absent. -/
def jsIndexOf (l : List String) (s : String) : Int :=
  if s ∈ l then (l.indexOf s : Int) else -1

def gradientTypeToInt (t : String) : Int :=
  jsIndexOf ["none", "linear", "radial", "conic", "corner-glow"] t

def blendModeToInt (m : String) : Int :=
  jsIndexOf ["normal", "overlay", "soft-light", "screen"] m

def grainSizeToInt (s : String) : Int := jsIndexOf ["fine", "normal", "coarse"] s

def grainAlgorithmToInt (n : String) : Int :=
  jsIndexOf ["uniform", "gaussian", "value", "perlin", "fbm", "simplex", "blue-noise",
    "poisson-stipple", "paper-fiber"] n

def intensityCurveToInt (n : String) : Int := jsIndexOf ["linear", "log", "s-curve"] n

/-- `seedToFloat(seed)`: JavaScript `seed % 2147483647` (remainder with the
sign of the dividend). -/
def seedToFloat (seed : Int) : Int := Int.tmod seed 2147483647

noncomputable section

/-- The uniforms `renderWebGL` uploads for a snapshot, in the export
configuration used by `renderWebGLToBlob` (`previewOffset = (0,0)`,
`previewZoom = 1`).  `collectUniforms` never fetches locations for
`uGradientBaseHue`/`uGradientBaseSaturation`/`uGradientBaseLightness`,
`uShaderVariant`, `uShaderStrength` or `uTime` updates beyond the ones
listed there, so `uGradientBase*` and the shader-variant uniforms keep the
WebGL default value `0`.  `tex`/`hasBN` stand for the bound blue-noise
texture. -/
noncomputable def uniformsOf (tex : ℝ × ℝ → ℝ) (hasBN : Bool) (time : ℝ) (s : Snapshot) :
    Uniforms where
  resolution := ((s.width : ℝ), (s.height : ℝ))
  previewOffset := (0, 0)
  previewZoom := 1
  hue := (s.hue : ℝ)
  saturation := (s.saturation : ℝ)
  lightness := (s.lightness : ℝ)
  gamma := (s.gamma : ℝ)
  shaderVariant := 0
  shaderStrength := 0
  gradientType := gradientTypeToInt s.gtype
  gradientMode := if s.gmode = "discrete" then 1 else 0
  gradientAngle := (s.angle : ℝ)
  gradientCenter := ((s.centerX : ℝ), (s.centerY : ℝ))
  gradientScale := (s.scale : ℝ)
  gradientBaseHue := 0
  gradientBaseSaturation := 0
  gradientBaseLightness := 0
  stops := (s.stops.take 8).map (fun st =>
    ⟨(st.pos : ℝ), (st.hueShift : ℝ), (st.lightnessDelta : ℝ), (st.opacity : ℝ)⟩)
  blendMode := blendModeToInt s.blend
  noiseAmount := (s.amount : ℝ)
  noiseSize := grainSizeToInt s.gsize
  noiseAlgorithm := grainAlgorithmToInt s.galgorithm
  noiseOctaves := s.octaves
  noiseLacunarity := (s.lacunarity : ℝ)
  noiseGain := (s.ggain : ℝ)
  chromaEnabled := s.chromaEnabled
  chromaIntensity := (s.chromaIntensity : ℝ)
  intensityCurve := intensityCurveToInt s.intensityCurve
  protectShadows := (s.protectShadows : ℝ)
  seed := ((seedToFloat s.seed : Int) : ℝ)
  time := time
  blueNoiseTex := tex
  hasBlueNoise := hasBN
  vignetteStrength := (s.vstrength : ℝ)
  vignetteRadius := (s.vradius : ℝ)
  vignetteFeather := (s.vfeather : ℝ)
  vignetteRoundness := (s.vroundness : ℝ)
  vignetteMode := if s.vmode = "soft-light" then 1 else 0
  applyDither := s.format = "jpg"

end

/-! ## Canvas2D renderer (`WallpaperRenderer` of the canvas backend)

`paintWallpaper` composes browser canvas operations.  The base fill and the
vignette are modelled per pixel; the rasterized gradient fill and the grain
overlay `drawImage` are browser-side raster operations and enter the model
as opaque layer functions — every claim below exercises only configurations
in which those passes are skipped by the source. -/

noncomputable section

open Real

/-- The sRGB color denoted by the CSS color `hsl(h, s%, l%)` used by the
base fill `ctx.fillStyle` (the standard HSL-to-RGB conversion of the CSS
Color specification). -/
noncomputable def hslCss (h sPct lPct : ℝ) : V3 :=
  let hm := glMod h 360
  let s := clampR (sPct / 100) 0 1
  let l := clampR (lPct / 100) 0 1
  let c := (1 - |2 * l - 1|) * s
  let hp := hm / 60
  let x := c * (1 - |glMod hp 2 - 1|)
  let rgb : V3 :=
    if hp < 1 then (c, x, 0)
    else if hp < 2 then (x, c, 0)
    else if hp < 3 then (0, c, x)
    else if hp < 4 then (0, x, c)
    else if hp < 5 then (x, 0, c)
    else (c, 0, x)
  let m := l - 0.5 * c
  addS3 rgb m

/-- `WallpaperRenderer.applyVignette` of the canvas backend, per pixel: a
two-stop radial canvas gradient from transparent to opaque black between
radii `inner` and `outer`, drawn with `globalAlpha = strength` in
`multiply` (or `soft-light`) composite mode over color `c`. -/
noncomputable def cpuApplyVignette (vstrength vradius vfeather : ℝ) (vmode : String)
    (width height : ℝ) (px : ℝ × ℝ) (c : V3) : V3 :=
  let strength := clampR vstrength 0 1
  if strength ≤ 0 then c
  else
    let radius := clampR vradius 0.1 2
    let feather := clampR vfeather 0.01 1
    let maxDim := max width height
    let outer := maxDim * radius
    let inner := max 0 (outer * (1 - feather))
    let d := Real.sqrt ((px.1 - width / 2) ^ 2 + (px.2 - height / 2) ^ 2)
    let a := clampR ((d - inner) / (outer - inner)) 0 1
    let alphaS := strength * a
    if vmode = "soft-light" then
      add3 (smul3 (1 - alphaS) c) (smul3 alphaS (mul3 c c))
    else
      smul3 (1 - alphaS) c

/-- The grain section of a fully-defaulted snapshot, as
`WallpaperRenderer.applyNoise` hands it to `generateGrainData`. -/
noncomputable def grainStateOf (s : Snapshot) : GrainState where
  enabled := none
  amount := some (s.amount : ℝ)
  size := some s.gsize
  algorithm := some s.galgorithm
  octaves := some ((s.octaves : Int) : ℝ)
  lacunarity := some (s.lacunarity : ℝ)
  gain := some (s.ggain : ℝ)
  chroma := some ⟨some s.chromaEnabled, some (s.chromaIntensity : ℝ)⟩
  intensityCurve := some s.intensityCurve
  protectShadows := some (s.protectShadows : ℝ)

/-- `WallpaperRenderer.paintWallpaper` of the canvas backend, per pixel:

* base fill with the CSS `hsl()` color;
* gradient pass (skipped when the type maps to `flat`, i.e. for `none`;
  otherwise the browser-rasterized gradient layer `gradLayer`);
* `applyShaderVariantFallback` — the snapshot schema has no `rendering`
  section, so the variant is `classic` and the pass returns unchanged;
* `applyNoise` — skipped when the clamped amount is zero or
  `generateGrainData` returns null, otherwise the grain overlay
  `noiseLayer`; the palette lightness reduces to the clamped base color
  lightness because the schema has no `gradient.palette` override;
* `applyVignette`. -/
noncomputable def cpuPaintPixel (gradLayer noiseLayer : (ℝ × ℝ) → V3 → V3) (s : Snapshot)
    (w h : Nat) (px : ℝ × ℝ) : V3 :=
  let base := hslCss (s.hue : ℝ) ((s.saturation : ℝ) * 100) ((s.lightness : ℝ) * 100)
  let gtype := if s.gtype = "none" then "flat" else s.gtype
  let c1 := if gtype ≠ "flat" then gradLayer px base else base
  let amount := clampR (s.amount : ℝ) 0 100
  let paletteLightness := clampR (s.lightness : ℝ) 0 1
  let c2 :=
    if amount ≤ 0 then c1
    else
      match generateGrainData w h (some (grainStateOf s)) paletteLightness s.seed with
      | none => c1
      | some _ => noiseLayer px c1
  cpuApplyVignette (s.vstrength : ℝ) (s.vradius : ℝ) (s.vfeather : ℝ) s.vmode
    (w : ℝ) (h : ℝ) px c2

end

/-! ## PNG metadata embedding and CRC-32
(`src/static/js/renderer.js` lines 68–170; the canvas backend has an
identical copy) -/

/-- One step of the inner loop of `createCrc32Table`:
`c = (c & 1) ? 0xedb88320 ^ (c >>> 1) : c >>> 1`. -/
def crcBitStep (c : Nat) : Nat :=
  if c % 2 = 1 then Nat.xor 0xedb88320 (c / 2) else c / 2

/-- `CRC32_TABLE[i]`: eight iterations of `crcBitStep` starting from `i`. -/
def crcTableEntry (i : Nat) : Nat := crcBitStep^[8] i

/-- `crc32(bytes)` from `renderer.js` (table driven).  JavaScript
`(c ^ b) & 0xff` is `(c ^^^ b) % 256` and `c >>> 8` is `c / 256` on the
unsigned 32-bit accumulator. -/
def crc32 (bytes : List Nat) : Nat :=
  Nat.xor
    (bytes.foldl (fun c b => Nat.xor (crcTableEntry (Nat.xor c b % 256)) (c / 256)) 0xffffffff)
    0xffffffff

/-- The textbook (table-free) CRC-32 with polynomial `0xEDB88320`: xor the
byte into the accumulator, then process its eight bits. -/
def crc32Standard (bytes : List Nat) : Nat :=
  Nat.xor (bytes.foldl (fun c b => crcBitStep^[8] (Nat.xor c b)) 0xffffffff) 0xffffffff

/-- `DataView.setUint32` big-endian: the four bytes of `n` modulo 2^32. -/
def u32be (n : Nat) : List Nat :=
  let m := n % 4294967296
  [m / 16777216 % 256, m / 65536 % 256, m / 256 % 256, m % 256]

/-- `DataView.setUint32` little-endian. -/
def u32le (n : Nat) : List Nat :=
  let m := n % 4294967296
  [m % 256, m / 256 % 256, m / 65536 % 256, m / 16777216 % 256]

/-- `DataView.getUint32` big-endian at `offset` (reads beyond the end give
zero, matching the model of `String.fromCharCode(undefined)` below; the
source guards the in-bounds case before reading). -/
def readU32 (bytes : List Nat) (offset : Nat) : Nat :=
  bytes.getD offset 0 * 16777216 + bytes.getD (offset + 1) 0 * 65536
    + bytes.getD (offset + 2) 0 * 256 + bytes.getD (offset + 3) 0

/-- The four type bytes at a chunk offset, as compared against `'IEND'` via
`String.fromCharCode` (an out-of-range `bytes[i]` is `undefined`, whose
char code is 0, matching `getD _ 0`). -/
def chunkTypeAt (bytes : List Nat) (offset : Nat) : List Nat :=
  [bytes.getD (offset + 4) 0, bytes.getD (offset + 5) 0, bytes.getD (offset + 6) 0,
   bytes.getD (offset + 7) 0]

/-- `'IEND'` as bytes. -/
def iendType : List Nat := [73, 69, 78, 68]

/-- `'tEXt'` as bytes. -/
def tEXtType : List Nat := [116, 69, 88, 116]

/-- The UTF-8 encoding of the keyword `'settings\x00'` (keyword plus the
null separator of a PNG tEXt chunk). -/
def settingsKeyword : List Nat := [115, 101, 116, 116, 105, 110, 103, 115, 0]

/-- The chunk scan loop of `embedPngMetadata` (`while (offset <
bytes.length) ...`): starting after the 8-byte signature, read each chunk
length, stop at the first `IEND` chunk, otherwise skip `12 + length` bytes.
Constructing `new DataView(bytes.buffer, offset, 4)` throws a `RangeError`
when fewer than four bytes remain. -/
def findIend (bytes : List Nat) (offset : Nat) : Except String Nat :=
  if offset < bytes.length then
    if bytes.length < offset + 4 then .error "RangeError"
    else if chunkTypeAt bytes offset = iendType then .ok offset
    else findIend bytes (offset + 12 + readU32 bytes offset)
  else .ok offset
termination_by bytes.length - offset
decreasing_by omega

/-- `embedPngMetadata(blob, text)` from `renderer.js`: build the
`tEXt` chunk `[length | type | keyword+text | crc32(type ++ data)]` and
splice it in at the position of the `IEND` chunk found by the scan. -/
def embedPngMetadata (bytes text : List Nat) : Except String (List Nat) :=
  let data := settingsKeyword ++ text
  let chunkLength := data.length
  let chunk := u32be chunkLength ++ tEXtType ++ data ++ u32be (crc32 (tEXtType ++ data))
  match findIend bytes 8 with
  | .error e => .error e
  | .ok offset => .ok (bytes.take offset ++ chunk ++ bytes.drop offset)

/-- `embedWebpMetadata(blob, text)` from `renderer.js`: append an `XMP `
RIFF chunk (little-endian size, even-padded payload) and patch the RIFF
size field; a non-RIFF container is returned unchanged. -/
def embedWebpMetadata (bytes text : List Nat) : List Nat :=
  if bytes.length < 12 ∨ bytes.take 4 ≠ [82, 73, 70, 70] then bytes
  else
    let paddedSize := text.length + text.length % 2
    let chunk := [88, 77, 80, 32] ++ u32le text.length ++ text
      ++ (if paddedSize ≠ text.length then [0] else [])
    let result := bytes ++ chunk
    result.take 4 ++ u32le (result.length - 8) ++ result.drop 8

/-- `maybeEmbedMetadata(blob, format, state)` from `renderer.js`: no-op
unless metadata embedding is enabled; a thrown embedding error is caught,
logged, and the unmodified blob is returned. -/
def maybeEmbedMetadata (blob : List Nat) (format : String) (embedMetadata : Bool)
    (text : List Nat) : List Nat :=
  if embedMetadata = false then blob
  else if format = "png" then
    match embedPngMetadata blob text with
    | .ok result => result
    | .error _ => blob
  else if format = "webp" then embedWebpMetadata blob text
  else blob

/-- A PNG chunk, for stating what a well-formed container looks like. -/
structure PngChunk where
  ctype : List Nat
  cdata : List Nat

/-- The byte encoding of a PNG chunk:
`[length | type | data | crc32(type ++ data)]`. -/
def encodeChunk (c : PngChunk) : List Nat :=
  u32be c.cdata.length ++ c.ctype ++ c.cdata ++ u32be (crc32 (c.ctype ++ c.cdata))

/-- The 8-byte PNG signature. -/
def pngSignature : List Nat := [137, 80, 78, 71, 13, 10, 26, 10]

/-! ## Claim-side predicates and concrete instances -/

/-- Membership of a color in the unit cube (all channels within `[0,1]`). -/
def inUnit3 (v : V3) : Prop :=
  0 ≤ v.1 ∧ v.1 ≤ 1 ∧ 0 ≤ v.2.1 ∧ v.2.1 ≤ 1 ∧ 0 ≤ v.2.2 ∧ v.2.2 ≤ 1

/-- The invariant claimed for the preset history: at most 12 entries, no two
sharing a fingerprint. -/
def HistoryInvariant (h : List HistoryEntry) : Prop :=
  h.length ≤ 12 ∧ (h.map (fun e => e.fingerprint)).Nodup

/-- The clamping claim as the specification states it for the hue field:
whatever raw input is normalized, the snapshot's `color.hue` lies within its
declared bounds `[0, 360)`. -/
def NormalizedHueInRange (seed : Int) : Prop :=
  ∀ raw q, objGet2 (normalizeState seed raw) "color" "hue" = some (.num q) → 0 ≤ q ∧ q < 360

/-- A raw input with an out-of-range hue and an unknown gradient type. -/
def c1Raw : JVal :=
  ofObj [("color", ofObj [("hue", .num 9999)]), ("gradient", ofObj [("type", .str "bogus")])]

/-- The scenario snapshot of the uniform-color claim: defaults with
`gradient.type = 'none'`, `grain.amount = 0`, `vignette.strength = 0`
(`color` and `gamma` already default to `hue 210 / saturation 0.55 /
lightness 0.45 / gamma 1.0`). -/
def c3Snapshot : Snapshot :=
  { defaultSnapshot 0 with gtype := "none", amount := 0, vstrength := 0 }

/-- A snapshot with `grain.amount = 0` whose overlay blend pushes the
composited color above 1 (white base, single fully transparent stop), with
a vignette that darkens the chosen pixel. -/
def c4Snapshot : Snapshot :=
  { defaultSnapshot 0 with
      width := 1000, height := 1000,
      hue := 0, saturation := 0, lightness := 1,
      gtype := "none",
      stops := [⟨0, 0, 0, 0⟩],
      blend := "overlay",
      amount := 0,
      vstrength := 1, vradius := 0.5, vfeather := 0.5, vroundness := 1, vmode := "multiply" }

/-- A truncated PNG: valid signature followed by three stray bytes, so the
chunk scan constructs an out-of-range `DataView`. -/
def badPng : List Nat := [137, 80, 78, 71, 13, 10, 26, 10, 0, 0, 0]

noncomputable section

/-- A minimal uniform set with no gradient stops, normal blend and zero
noise amount, used to exercise the grain-pass identity on an in-range
color. -/
noncomputable def c4PlainUniforms : Uniforms where
  resolution := (1000, 1000)
  previewOffset := (0, 0)
  previewZoom := 1
  hue := 0
  saturation := 0
  lightness := 0
  gamma := 1
  shaderVariant := 0
  shaderStrength := 0
  gradientType := 0
  gradientMode := 0
  gradientAngle := 0
  gradientCenter := (0.5, 0.5)
  gradientScale := 1
  gradientBaseHue := 0
  gradientBaseSaturation := 0
  gradientBaseLightness := 0
  stops := []
  blendMode := 0
  noiseAmount := 0
  noiseSize := 1
  noiseAlgorithm := 0
  noiseOctaves := 1
  noiseLacunarity := 2
  noiseGain := 0.5
  chromaEnabled := true
  chromaIntensity := 0.08
  intensityCurve := 0
  protectShadows := 0.05
  seed := 0
  time := 0
  blueNoiseTex := fun _ => 0
  hasBlueNoise := false
  vignetteStrength := 0
  vignetteRadius := 0.8
  vignetteFeather := 0.6
  vignetteRoundness := 1
  vignetteMode := 0
  applyDither := false

end

/-! ## Theorems -/

/-- **C1** (counterexample).  The claim "normalizeState never lets an
out-of-range number propagate into the snapshot it returns" is false: the
raw input `c1Raw` carries `color.hue = 9999` through `normalizeState`
unchanged, outside the declared bounds `[0, 360)`. -/
theorem c1_counterexample : ¬ NormalizedHueInRange 0 := by
  intro hclaim
  have h := hclaim c1Raw 9999 (by decide)
  norm_num at h

/-- **C1** (amended).  `normalizeState` deep-merges the raw input onto a
full default snapshot: a field supplied by the input overrides the default
verbatim — numeric fields are not clamped and enum fields are not checked
against their variants, so out-of-range numbers (here an arbitrary hue `q`)
and unknown enum strings (an arbitrary gradient type `ty`) propagate into
the returned snapshot — while missing fields take the schema defaults (an
empty input normalizes to exactly the default state). -/
theorem c1_normalize_merges_without_clamping (seed : Int) (q : Rat) (ty : String) :
    objGet2 (normalizeState seed (ofObj [("color", ofObj [("hue", .num q)]),
      ("gradient", ofObj [("type", .str ty)])])) "color" "hue" = some (.num q) ∧
    objGet2 (normalizeState seed (ofObj [("color", ofObj [("hue", .num q)]),
      ("gradient", ofObj [("type", .str ty)])])) "gradient" "type" = some (.str ty) ∧
    normalizeState seed (ofObj []) = defaultState seed := by
  refine ⟨rfl, rfl, rfl⟩

/-- **C9**.  If PNG metadata embedding throws, `maybeEmbedMetadata` catches
the error and the export continues with the unmodified encoded blob — the
error never propagates out. -/
theorem c9_embed_error_returns_blob (blob text : List Nat) (e : String)
    (h : embedPngMetadata blob text = .error e) :
    maybeEmbedMetadata blob "png" true text = blob := by
  simp [maybeEmbedMetadata, h]

/-- **C9** (witness).  A concrete malformed container: the truncated PNG
`badPng` makes the chunk scan throw a `RangeError`, and the export returns
`badPng` unchanged. -/
theorem c9_witness :
    embedPngMetadata badPng [] = .error "RangeError" ∧
    maybeEmbedMetadata badPng "png" true [] = badPng := by
  have h : embedPngMetadata badPng [] = .error "RangeError" := by
    simp [embedPngMetadata, findIend, badPng]
  exact ⟨h, c9_embed_error_returns_blob badPng [] "RangeError" h⟩

/-- Shallow copy of gradient-stop objects is the identity (each element of
a snapshot's `stops` array is an object, so the array branch of the merge
copies it unchanged). -/
theorem arrCopy_mapped_stops (l : List GradientStop) :
    arrCopy (List.foldr JVal.acons JVal.anil (l.map GradientStop.toJson))
      = List.foldr JVal.acons JVal.anil (l.map GradientStop.toJson) := by
  induction l with
  | nil => rfl
  | cons a t ih =>
      simpa [arrCopy, copyArrayItem, GradientStop.toJson, ofObj] using ih

/-- Unfolding step of `deepMerge` at an array-valued field whose spine is
still a symbolic fold (case split on the underlying list). -/
theorem deepMerge_arr_field (t : JVal) (k : String) (l : List JVal) (rest : JVal) :
    deepMerge t (.ocons k (List.foldr JVal.acons JVal.anil l) rest)
      = deepMerge (objSet t k (arrCopy (List.foldr JVal.acons JVal.anil l))) rest := by
  cases l <;> rfl

/-- Normalizing a fully-defaulted snapshot is the identity: merging a
complete snapshot onto the defaults replaces every default field with the
snapshot's own value. -/
theorem normalizeState_complete (seed : Int) (snap : Snapshot) :
    normalizeState seed snap.toJson = snap.toJson := by
  simp [normalizeState, cloneState, defaultState, Snapshot.toJson, ofObj, ofArr, deepMerge,
    objSet, objGet, spreadRecord, deepMerge_arr_field, arrCopy_mapped_stops]

/-- **C2**.  For every valid (fully-defaulted) snapshot: deserializing the
serialized JSON and then normalizing equals normalizing the original, and
decoding the URL-hash encoding reproduces the snapshot (normalization is
the identity on complete snapshots, so the decoded state is equivalent to
the original). -/
theorem c2_serialize_roundtrip (seed : Int) (snap : Snapshot) :
    deserializeState seed (serializeState snap.toJson) = normalizeState seed snap.toJson ∧
    decodeStateFromUrl seed (some (encodeStateToUrl snap.toJson)) = some snap.toJson ∧
    normalizeState seed snap.toJson = snap.toJson := by
  have hc := normalizeState_complete seed snap
  exact ⟨rfl, by simp [decodeStateFromUrl, encodeStateToUrl, serializeState, hc], hc⟩

/-- **C10**.  The preset history invariants — at most 12 entries, no two
with the same fingerprint — are preserved by `addHistory` and
`removeHistory`; moreover `addHistory` leaves the list unchanged when an
entry with the state's fingerprint exists, and otherwise prepends one entry,
dropping the oldest when the length would exceed 12. -/
theorem c10_history_invariants :
    (∀ (h : List HistoryEntry) (label : String) (state : JVal) (detail : String) (ts : Rat),
      HistoryInvariant h →
        HistoryInvariant (addHistory h label state detail ts) ∧
        ((∃ e ∈ h, e.fingerprint = stateFingerprint state) →
          addHistory h label state detail ts = h) ∧
        ((¬ ∃ e ∈ h, e.fingerprint = stateFingerprint state) →
          addHistory h label state detail ts =
            (if (historyEntryOf label state detail ts :: h).length > 12
             then (historyEntryOf label state detail ts :: h).dropLast
             else historyEntryOf label state detail ts :: h))) ∧
    (∀ (h : List HistoryEntry) (fp : String), HistoryInvariant h →
      HistoryInvariant (removeHistory h fp)) := by
  constructor
  · intro h label state detail ts hinv
    by_cases hex : h.any (fun item => item.fingerprint = stateFingerprint state)
    · have hexists : ∃ e ∈ h, e.fingerprint = stateFingerprint state := by
        simpa using hex
      refine ⟨?_, fun _ => by simp [addHistory, hex], fun hn => absurd hexists hn⟩
      simpa [addHistory, hex] using hinv
    · have hnot : ∀ e ∈ h, ¬ e.fingerprint = stateFingerprint state := by
        simpa using hex
      have hfresh : stateFingerprint state ∉ h.map (fun e => e.fingerprint) := by
        intro hmem
        obtain ⟨e, hmem, heq⟩ := List.mem_map.mp hmem
        exact hnot e hmem heq
      refine ⟨?_, fun hcon => absurd hcon (by simpa using hex), fun _ => by
        simp [addHistory, hex, historyEntryOf]⟩
      have hfull : ((historyEntryOf label state detail ts :: h).map
          (fun e => e.fingerprint)).Nodup := by
        simpa [historyEntryOf] using ⟨hnot, hinv.2⟩
      by_cases hlen : h.length + 1 > 12
      · have hres : HistoryInvariant ((historyEntryOf label state detail ts :: h).dropLast) := by
        
          constructor
          · have h12 := hinv.1
            simp [List.length_dropLast]
            omega
          · exact hfull.sublist ((List.dropLast_sublist _).map _)
        simpa [addHistory, hex, hlen, historyEntryOf] using hres
      · constructor
        · have h12 := hinv.1
          simp [addHistory, hex, hlen, historyEntryOf]
          omega
        · simpa [addHistory, hex, hlen, historyEntryOf] using hfull
  · intro h fp hinv
    constructor
    · exact le_trans (List.length_filter_le _ _) hinv.1
    · exact hinv.2.sublist ((List.filter_sublist _).map _)

/-- **C10** (witness).  Concrete instantiation: both invariants hold when
adding the default state to an empty history and removing from an empty
history. -/
theorem c10_witness :
    HistoryInvariant (addHistory [] "Preset" (defaultState 1) "Preset applied" 0) ∧
    HistoryInvariant (removeHistory [] "fp") := by
  have hinv0 : HistoryInvariant ([] : List HistoryEntry) := by
    constructor <;> simp
  exact ⟨(c10_history_invariants.1 [] "Preset" (defaultState 1) "Preset applied" 0 hinv0).1,
    c10_history_invariants.2 [] "fp" hinv0⟩

/-- The unsigned 32-bit hash is below 2^32. -/
theorem toUint32_lt (x : Int) : toUint32 x < 4294967296 := by
  unfold toUint32
  have h : x % 4294967296 < 4294967296 := Int.emod_lt_of_pos x (by norm_num)
  omega

/-- `hashInt` always lands in `[0, 1]`. -/
theorem hashInt_mem (x y seed : Int) : 0 ≤ hashInt x y seed ∧ hashInt x y seed ≤ 1 := by
  unfold hashInt
  have hlt : hashIntNat x y seed < 4294967296 := by
    unfold hashIntNat
    exact toUint32_lt _
  constructor
  · positivity
  · rw [div_le_one (by norm_num)]
    have : (hashIntNat x y seed : ℝ) ≤ 4294967295 := by
      exact_mod_cast Nat.le_of_lt_succ hlt
    linarith

/-- `clampR v 0 1` lands in `[0, 1]`. -/
theorem clampR01_mem (v : ℝ) : 0 ≤ clampR v 0 1 ∧ clampR v 0 1 ≤ 1 := by
  unfold clampR
  exact ⟨le_min (le_max_right v 0) (by norm_num), min_le_right _ _⟩

/-- `clamp01` lands in `[0, 1]`. -/
theorem clamp01_mem (v : ℝ) : 0 ≤ clamp01 v ∧ clamp01 v ≤ 1 := clampR01_mem v

/-- The smoothstep easing maps `[0, 1]` into `[0, 1]`. -/
theorem sstep_mem (t : ℝ) (h0 : 0 ≤ t) (h1 : t ≤ 1) : 0 ≤ sstep t ∧ sstep t ≤ 1 := by
  unfold sstep
  constructor
  · nlinarith
  · nlinarith [sq_nonneg (1 - t), sq_nonneg t]

/-- Linear interpolation of values in `[0, 1]` with weight in `[0, 1]`
stays in `[0, 1]`. -/
theorem lerp_mem (a b t : ℝ) (ha0 : 0 ≤ a) (ha1 : a ≤ 1) (hb0 : 0 ≤ b) (hb1 : b ≤ 1)
    (ht0 : 0 ≤ t) (ht1 : t ≤ 1) : 0 ≤ lerp a b t ∧ lerp a b t ≤ 1 := by
  unfold lerp
  constructor
  · nlinarith [mul_nonneg ha0 (sub_nonneg.mpr ht1), mul_nonneg hb0 ht0]
  · nlinarith [mul_nonneg (sub_nonneg.mpr ha1) (sub_nonneg.mpr ht1),
      mul_nonneg (sub_nonneg.mpr hb1) ht0]

/-- The fractional offset to the lattice floor lies in `[0, 1)`. -/
theorem fract_mem (x : ℝ) : 0 ≤ x - ((jfloor x : Int) : ℝ) ∧ x - ((jfloor x : Int) : ℝ) ≤ 1 := by
  unfold jfloor
  constructor
  · have := Int.floor_le x
    linarith
  · have := Int.lt_floor_add_one x
    push_cast at this ⊢
    linarith

/-- `valueNoise2D` stays in `[0, 1]`: bilinear interpolation of hash values
in `[0, 1]` with smoothstep weights in `[0, 1]`. -/
theorem valueNoise2D_mem (x y : ℝ) (seed : Int) :
    0 ≤ valueNoise2D x y seed ∧ valueNoise2D x y seed ≤ 1 := by
  unfold valueNoise2D
  obtain ⟨htx0, htx1⟩ := fract_mem x
  obtain ⟨hty0, hty1⟩ := fract_mem y
  obtain ⟨hsx0, hsx1⟩ := sstep_mem _ htx0 htx1
  obtain ⟨hsy0, hsy1⟩ := sstep_mem _ hty0 hty1
  obtain ⟨h000, h001⟩ := hashInt_mem (jfloor x) (jfloor y) seed
  obtain ⟨h100, h101⟩ := hashInt_mem (jfloor x + 1) (jfloor y) seed
  obtain ⟨h010, h011⟩ := hashInt_mem (jfloor x) (jfloor y + 1) seed
  obtain ⟨h110, h111⟩ := hashInt_mem (jfloor x + 1) (jfloor y + 1) seed
  obtain ⟨hx00, hx01⟩ := lerp_mem _ _ _ h000 h001 h100 h101 hsx0 hsx1
  obtain ⟨hx10, hx11⟩ := lerp_mem _ _ _ h010 h011 h110 h111 hsx0 hsx1
  exact lerp_mem _ _ _ hx00 hx01 hx10 hx11 hsy0 hsy1

/-- Every branch of `sampleBaseNoise` lands in `[0, 1]`. -/
theorem sampleBaseNoise_mem (algorithm : String) (nx ny frequency : ℝ) (seed : Int) :
    0 ≤ sampleBaseNoise algorithm nx ny frequency seed ∧
      sampleBaseNoise algorithm nx ny frequency seed ≤ 1 := by
  unfold sampleBaseNoise
  split
  · exact clamp01_mem _
  · exact valueNoise2D_mem _ _ _
  · unfold gradientNoise2D
    exact clamp01_mem _
  · exact clamp01_mem _
  · unfold simplexNoise2D
    exact clamp01_mem _
  · unfold blueNoise2D
    exact clamp01_mem _
  · unfold worleyNoise2D
    exact clamp01_mem _
  · unfold paperFiberNoise2D
    exact clamp01_mem _
  · exact hashInt_mem _ _ _

/-- **C5**.  Every supported noise algorithm (and in fact any algorithm
string, via the `uniform` default) returns a sample in `[0, 1]` for every
input, on both backends: the CPU `sampleBaseNoise` and the shader
`noiseValue`. -/
theorem c5_noise_sample_range (algorithm : String) (nx ny frequency : ℝ) (seed : Int) :
    (0 ≤ sampleBaseNoise algorithm nx ny frequency seed ∧
      sampleBaseNoise algorithm nx ny frequency seed ≤ 1) ∧
    (∀ (u : Uniforms) (uv : ℝ × ℝ), 0 ≤ noiseValueGl u uv ∧ noiseValueGl u uv ≤ 1) :=
  ⟨sampleBaseNoise_mem algorithm nx ny frequency seed, fun _ _ => clampR01_mem _⟩

/-- Closed form of the `generateGrainData` octave loop: starting from
running state `(freq, amp, sum, ampSum)` at octave index `i`, after `n`
octaves the sums have accumulated `amp * gain^j` weighted samples at
frequency `freq * lacunarity^j` and seed offset `(i + j) * 131`. -/
theorem octaveLoop_closed (algorithm : String) (nx ny : ℝ) (seed : Int) (lac g : ℝ) :
    ∀ (n i : Nat) (freq amp sum ampSum : ℝ),
      octaveLoop algorithm nx ny seed lac g n i freq amp sum ampSum =
        (sum + ∑ j in Finset.range n, amp * g ^ j *
            sampleBaseNoise algorithm nx ny (freq * lac ^ j) (seed + ((i + j : Nat) : Int) * 131),
         ampSum + ∑ j in Finset.range n, amp * g ^ j) := by
  intro n
  induction n with
  | zero => intro i freq amp sum ampSum; simp [octaveLoop]
  | succ m ih =>
      intro i freq amp sum ampSum
      rw [octaveLoop, ih]
      rw [Prod.mk.injEq]
      refine ⟨?_, ?_⟩
      · rw [Finset.sum_range_succ']
        have hcong : ∀ j ∈ Finset.range m,
            amp * g * g ^ j * sampleBaseNoise algorithm nx ny (freq * lac * lac ^ j)
              (seed + ((i + 1 + j : Nat) : Int) * 131)
            = amp * g ^ (j + 1) * sampleBaseNoise algorithm nx ny (freq * lac ^ (j + 1))
              (seed + ((i + (j + 1) : Nat) : Int) * 131) := by
          intro j _
          have h1 : (i + 1 + j : Nat) = (i + (j + 1) : Nat) := by omega
          rw [h1, pow_succ, pow_succ]
          ring_nf
        rw [Finset.sum_congr rfl hcong]
        simp only [pow_zero, mul_one, Nat.add_zero]
        ring
      · rw [Finset.sum_range_succ']
        have hcong : ∀ j ∈ Finset.range m, amp * g * g ^ j = amp * g ^ (j + 1) := by
          intro j _
          rw [pow_succ]
          ring
        rw [Finset.sum_congr rfl hcong]
        simp only [pow_zero, mul_one]
        ring

/-- **C6** (amended, CPU backend).  The octave loop of `generateGrainData`
computes a weighted sum of `octaves` layers — layer `j` sampled at
frequency `freqBase * lacunarity^j` and weight `gain^j`, i.e. each layer's
frequency is the previous times the lacunarity and its amplitude the
previous times the gain — and divides by the sum of the amplitudes actually
used, so the normalized value stays in `[0, 1]` for every octave count.
(The WebGL `fbm` does *not* normalize this way; see the counterexample.) -/
theorem c6_cpu_octave_normalization (algorithm : String) (nx ny freqBase lac g : ℝ)
    (seed : Int) (n : Nat) (hg : 0 < g) (hn : 1 ≤ n) :
    grainValue algorithm nx ny freqBase lac g seed n =
      (∑ j in Finset.range n, g ^ j * sampleBaseNoise algorithm nx ny
          (freqBase * lac ^ j) (seed + (j : Int) * 131)) /
        (∑ j in Finset.range n, g ^ j) ∧
    0 ≤ grainValue algorithm nx ny freqBase lac g seed n ∧
    grainValue algorithm nx ny freqBase lac g seed n ≤ 1 := by
  have hA : 0 < ∑ j in Finset.range n, g ^ j :=
    Finset.sum_pos (fun j _ => pow_pos hg j) (Finset.nonempty_range_iff.mpr (by omega))
  have hval : grainValue algorithm nx ny freqBase lac g seed n =
      (∑ j in Finset.range n, g ^ j * sampleBaseNoise algorithm nx ny
          (freqBase * lac ^ j) (seed + (j : Int) * 131)) /
        (∑ j in Finset.range n, g ^ j) := by
    unfold grainValue
    rw [octaveLoop_closed]
    simp only [zero_add, one_mul, Nat.zero_add]
    rw [if_pos hA]
  have hS0 : 0 ≤ ∑ j in Finset.range n, g ^ j * sampleBaseNoise algorithm nx ny
      (freqBase * lac ^ j) (seed + (j : Int) * 131) :=
    Finset.sum_nonneg fun j _ =>
      mul_nonneg (pow_nonneg hg.le j) (sampleBaseNoise_mem _ _ _ _ _).1
  have hSA : (∑ j in Finset.range n, g ^ j * sampleBaseNoise algorithm nx ny
      (freqBase * lac ^ j) (seed + (j : Int) * 131)) ≤ ∑ j in Finset.range n, g ^ j :=
    Finset.sum_le_sum fun j _ =>
      mul_le_of_le_one_right (pow_nonneg hg.le j) (sampleBaseNoise_mem _ _ _ _ _).2
  refine ⟨hval, ?_, ?_⟩
  · rw [hval]
    exact div_nonneg hS0 hA.le
  · rw [hval]
    exact (div_le_one hA).mpr hSA

/-- **C6** (witness).  Concrete instantiation of the CPU normalization
bound at algorithm `uniform`, three octaves, gain 1/2. -/
theorem c6_witness :
    0 ≤ grainValue "uniform" 0 0 8 2 (1 / 2) 0 3 ∧
      grainValue "uniform" 0 0 8 2 (1 / 2) 0 3 ≤ 1 :=
  (c6_cpu_octave_normalization "uniform" 0 0 8 2 (1 / 2) 0 3 (by norm_num) (by norm_num)).2

/-- The GLSL `perlin` evaluated at the lattice origin is exactly `0.5`,
regardless of the seed: the fade weights and the corner offset vanish. -/
theorem perlinGl_zero (seed : ℝ) : perlinGl 0 seed = 0.5 := by
  simp [perlinGl, gradientGl, dot2, fadeGl, glMix, glFract]

/-- **C6** (counterexample).  The WebGL `fbm` does not divide by the sum of
the amplitudes used: at `p = (0,0)` with 8 octaves and gain 1 every octave
contributes `0.5 * 0.5`, so the result is `2`, outside `[0, 1]` — the
claimed normalization does not hold on the WebGL backend. -/
theorem c6_counterexample :
    fbmGl (0, 0) 0 8 2 1 false = 2 ∧ ¬ (fbmGl (0, 0) 0 8 2 1 false ≤ 1) := by
  have hr : List.range 8 = [0, 1, 2, 3, 4, 5, 6, 7] := rfl
  have h : fbmGl (0, 0) 0 8 2 1 false = 2 := by
    simp [fbmGl, hr, perlinGl_zero]
    norm_num
  exact ⟨h, by rw [h]; norm_num⟩

/-- **C7**.  For snapshots that differ only in `random.seed`: the gradient
field evaluation and the vignette pass read nothing derived from the seed,
so their outputs are identical at every pixel on both backends; the noise
sampling, by contrast, does depend on the seed — witnessed by a concrete
pair of seeds whose `uniform` grain samples differ. -/
theorem c7_seed_independence :
    (∀ (u : Uniforms) (s1 s2 : ℝ) (uv : ℝ × ℝ),
      gradientFactor { u with seed := s1 } uv = gradientFactor { u with seed := s2 } uv) ∧
    (∀ (u : Uniforms) (s1 s2 : ℝ) (color : V3) (uv : ℝ × ℝ),
      applyVignette { u with seed := s1 } color uv =
        applyVignette { u with seed := s2 } color uv) ∧
    (∀ (s : Snapshot) (k : Int) (w h : ℝ) (px : ℝ × ℝ) (c : V3),
      cpuApplyVignette ((({ s with seed := k } : Snapshot).vstrength : ℝ))
          ((({ s with seed := k } : Snapshot).vradius : ℝ))
          ((({ s with seed := k } : Snapshot).vfeather : ℝ))
          ({ s with seed := k } : Snapshot).vmode w h px c =
        cpuApplyVignette ((s.vstrength : ℝ)) ((s.vradius : ℝ)) ((s.vfeather : ℝ))
          s.vmode w h px c) ∧
    sampleBaseNoise "uniform" 0 0 8 0 ≠ sampleBaseNoise "uniform" 0 0 8 1 := by
  refine ⟨fun u s1 s2 uv => rfl, fun u s1 s2 color uv => rfl,
    fun s k w h px c => rfl, ?_⟩
  have huni : ∀ (nx ny freq : ℝ) (seed : Int),
      sampleBaseNoise "uniform" nx ny freq seed
        = hashInt (jfloor (nx * freq * 4096)) (jfloor (ny * freq * 4096)) (seed + 53) :=
    fun _ _ _ _ => rfl
  have hne : hashIntNat 0 0 53 ≠ hashIntNat 0 0 54 := by decide
  intro heq
  apply hne
  rw [huni, huni] at heq
  simp only [hashInt, jfloor] at heq
  norm_num at heq
  field_simp at heq
  exact heq

/-- With `uNoiseAmount = 0` the shader grain pass reduces to clamping the
incoming color to the unit cube: the curve output is scaled by `0/100`,
every noise offset vanishes, and only the final `clamp` remains. -/
theorem applyNoiseGl_amount_zero (u : Uniforms) (c : V3) (n : ℝ) (fc : ℝ × ℝ)
    (h : u.noiseAmount = 0) : applyNoiseGl u c n fc = clamp3 c 0 1 := by
  unfold applyNoiseGl
  rw [h]
  cases hc : u.chromaEnabled <;> simp [glMix, addS3, add3, smul3]

/-- With `uVignetteStrength = 0` the shader vignette pass is the identity
(in either blend mode the final mix has weight zero). -/
theorem applyVignette_strength_zero (u : Uniforms) (c : V3) (uv : ℝ × ℝ)
    (h : u.vignetteStrength = 0) : applyVignette u c uv = c := by
  unfold applyVignette
  rw [h]
  have h0 : clampR 0 0 1 = 0 := by unfold clampR; norm_num
  rw [h0]
  split <;> simp [mix3, glMix]

/-- With `uGamma = 1` the gamma pass is the identity on each channel. -/
theorem pow3_gamma_one (v : V3) : pow3 v (1 / max (1 : ℝ) 0.001) = v := by
  have h : max (1 : ℝ) 0.001 = 1 := by norm_num
  rw [h]
  unfold pow3
  norm_num [Real.rpow_one]

/-- The shader HSL conversion of black (the unset gradient-base uniforms). -/
theorem hsl2rgbGl_zero : hsl2rgbGl (0, 0, 0) = ((0 : ℝ), (0 : ℝ), (0 : ℝ)) := by
  norm_num [hsl2rgbGl, glMod, clampR, addS3]

/-- The shader HSL conversion of the default base color
HSL(210°, 55%, 45%). -/
theorem hsl2rgbGl_base210 :
    hsl2rgbGl ((210 : ℝ) / 360, 0.55, 0.45) = ((0.2025 : ℝ), (0.45 : ℝ), (0.6975 : ℝ)) := by
  norm_num [hsl2rgbGl, glMod, clampR, addS3, abs]

/-- The CSS HSL conversion of `hsl(210, 55%, 45%)` (the claimed reference
color). -/
theorem hslCss_base210 :
    hslCss 210 55 45 = ((0.2025 : ℝ), (0.45 : ℝ), (0.6975 : ℝ)) := by
  norm_num [hslCss, glMod, clampR, addS3, abs]

/-- The uniforms uploaded for the C3 scenario snapshot, with the concrete
field values the shader sees. -/
theorem c3_uniform_fields (tex : ℝ × ℝ → ℝ) (hasBN : Bool) (time : ℝ) :
    (uniformsOf tex hasBN time c3Snapshot).noiseAmount = 0 ∧
    (uniformsOf tex hasBN time c3Snapshot).vignetteStrength = 0 ∧
    (uniformsOf tex hasBN time c3Snapshot).gamma = 1 ∧
    (uniformsOf tex hasBN time c3Snapshot).applyDither = false ∧
    (uniformsOf tex hasBN time c3Snapshot).gradientType = 0 ∧
    (uniformsOf tex hasBN time c3Snapshot).gradientMode = 0 ∧
    (uniformsOf tex hasBN time c3Snapshot).blendMode = 1 ∧
    (uniformsOf tex hasBN time c3Snapshot).shaderVariant = 0 ∧
    (uniformsOf tex hasBN time c3Snapshot).hue = 210 ∧
    (uniformsOf tex hasBN time c3Snapshot).saturation = 0.55 ∧
    (uniformsOf tex hasBN time c3Snapshot).lightness = 0.45 ∧
    (uniformsOf tex hasBN time c3Snapshot).gradientBaseHue = 0 ∧
    (uniformsOf tex hasBN time c3Snapshot).gradientBaseSaturation = 0 ∧
    (uniformsOf tex hasBN time c3Snapshot).gradientBaseLightness = 0 ∧
    (uniformsOf tex hasBN time c3Snapshot).stops =
      [⟨0, 0, 0, 1⟩, ⟨1, 30, 0.25, 0.6⟩] := by
  refine ⟨?_, ?_, ?_, ?_, ?_, ?_, ?_, ?_, ?_, ?_, ?_, ?_, ?_, ?_, ?_⟩ <;>
    norm_num [uniformsOf, c3Snapshot, defaultSnapshot, gradientTypeToInt, blendModeToInt,
      jsIndexOf, List.indexOf, List.findIdx, List.findIdx.go] <;>
    decide

/-- The shader HSL conversion of the zero vector (the unset gradient-base
uniforms resolve to black). -/
theorem hsl2rgbGl_zeroV : hsl2rgbGl (0 : V3) = ((0 : ℝ), (0 : ℝ), (0 : ℝ)) := by
  norm_num [hsl2rgbGl, glMod, clampR, addS3, Prod.fst_zero, Prod.snd_zero]

/-- The pre-grain color of the C3 scenario on the WebGL backend: the
`type = 'none'` path still blends the first gradient stop (resolved against
the never-uploaded, hence black, gradient-base uniforms) over the base
color with the default `overlay` blend, leaving `0.51 ×` the base color at
every pixel. -/
theorem c3_preNoise (tex : ℝ × ℝ → ℝ) (hasBN : Bool) (time : ℝ) (vUV : ℝ × ℝ) :
    preNoiseColor (uniformsOf tex hasBN time c3Snapshot) vUV
      = ((0.103275 : ℝ), (0.2295 : ℝ), (0.355725 : ℝ)) := by
  obtain ⟨ham, hvs, hg, hd, hgt, hgm, hbm, hsv, hhue, hsat, hlig, hgb1, hgb2, hgb3, hstops⟩ :=
    c3_uniform_fields tex hasBN time
  simp only [preNoiseColor, gradientFactor, gradientColor, gradientWalk, resolveStopHsl,
    applyShaderVariant, blendGl, hhue, hsat, hlig, hgb1, hgb2, hgb3, hgt, hgm, hbm, hsv,
    hstops, hsl2rgbGl_base210, List.headD, List.tail, List.length_cons,
    List.length_nil]
  norm_num [mix3, glMix, add3, mul3, clampR, hsl2rgbGl_zeroV]

/-- **C3** (amended).  For the scenario snapshot (defaults with
`gradient.type='none'`, `grain.amount=0`, `vignette.strength=0`,
`gamma=1.0`): the Canvas2D backend produces a uniform image whose every
pixel is the sRGB conversion of HSL(210°, 55%, 45%) — independently of the
browser-rasterized gradient/grain layers, which are skipped; the WebGL
backend also produces a uniform image, but each pixel is `0.51 ×` that
color, because the `type='none'` path still blends the first gradient stop
(resolved against the never-uploaded black gradient-base uniforms) over the
base fill with the default `overlay` blend. -/
theorem c3_scenario_uniform_color :
    (∀ (gradLayer noiseLayer : (ℝ × ℝ) → V3 → V3) (w h : Nat) (px : ℝ × ℝ),
      cpuPaintPixel gradLayer noiseLayer c3Snapshot w h px = hslCss 210 55 45) ∧
    hslCss 210 55 45 = ((0.2025 : ℝ), (0.45 : ℝ), (0.6975 : ℝ)) ∧
    (∀ (tex : ℝ × ℝ → ℝ) (hasBN : Bool) (time : ℝ) (vUV fragCoord : ℝ × ℝ),
      shaderPixel (uniformsOf tex hasBN time c3Snapshot) vUV fragCoord
        = ((0.103275 : ℝ), (0.2295 : ℝ), (0.355725 : ℝ))) := by
  refine ⟨?_, hslCss_base210, ?_⟩
  · intro gradLayer noiseLayer w h px
    unfold cpuPaintPixel cpuApplyVignette
    norm_num [c3Snapshot, defaultSnapshot, clampR]
  · intro tex hasBN time vUV fragCoord
    obtain ⟨ham, hvs, hg, hd, _, _, _, _, _, _, _, _, _, _, _⟩ :=
      c3_uniform_fields tex hasBN time
    have hcl : clamp3 ((0.103275 : ℝ), (0.2295 : ℝ), (0.355725 : ℝ)) 0 1
        = ((0.103275 : ℝ), (0.2295 : ℝ), (0.355725 : ℝ)) := by
      norm_num [clamp3, clampR]
    simp only [shaderPixel, shaderPixelAux, if_true, c3_preNoise]
    rw [applyNoiseGl_amount_zero _ _ _ _ ham, hcl,
      applyVignette_strength_zero _ _ _ hvs, hd]
    simp only [Bool.false_eq_true, if_false]
    rw [hg, pow3_gamma_one]
    exact hcl

/-- **C3** (counterexample).  At pixel `(0.5, 0.5)` the WebGL backend does
not produce the sRGB conversion of HSL(210°, 55%, 45%): the output is
`0.51 ×` that color, so the claim fails on the WebGL backend (while the
Canvas2D backend does produce the claimed color, see the amended
theorem). -/
theorem c3_counterexample :
    shaderPixel (uniformsOf (fun _ => 0) true 0 c3Snapshot) (0.5, 0.5) (0, 0)
      ≠ hslCss 210 55 45 := by
  obtain ⟨ham, hvs, hg, hd, _, _, _, _, _, _, _, _, _, _, _⟩ :=
    c3_uniform_fields (fun _ => 0) true 0
  have hcl : clamp3 ((0.103275 : ℝ), (0.2295 : ℝ), (0.355725 : ℝ)) 0 1
      = ((0.103275 : ℝ), (0.2295 : ℝ), (0.355725 : ℝ)) := by
    norm_num [clamp3, clampR]
  have hshader : shaderPixel (uniformsOf (fun _ => 0) true 0 c3Snapshot) (0.5, 0.5) (0, 0)
      = ((0.103275 : ℝ), (0.2295 : ℝ), (0.355725 : ℝ)) := by
    simp only [shaderPixel, shaderPixelAux, if_true, c3_preNoise]
    rw [applyNoiseGl_amount_zero _ _ _ _ ham, hcl,
      applyVignette_strength_zero _ _ _ hvs, hd]
    simp only [Bool.false_eq_true, if_false]
    rw [hg, pow3_gamma_one]
    exact hcl
  rw [hshader, hslCss_base210]
  intro hcontra
  have h1 : (0.103275 : ℝ) = 0.2025 := congrArg Prod.fst hcontra
  norm_num at h1

/-- Clamping to the unit cube is the identity on colors already inside it. -/
theorem clamp3_of_inUnit3 (v : V3) (h : inUnit3 v) : clamp3 v 0 1 = v := by
  obtain ⟨h1, h2, h3, h4, h5, h6⟩ := h
  unfold clamp3 clampR
  rw [max_eq_left h1, min_eq_left h2, max_eq_left h3, min_eq_left h4,
    max_eq_left h5, min_eq_left h6]

/-- The shader HSL conversion of white (lightness 1). -/
theorem hsl2rgbGl_white :
    hsl2rgbGl ((0 : ℝ) / 360, 0, 1) = ((1 : ℝ), (1 : ℝ), (1 : ℝ)) := by
  norm_num [hsl2rgbGl, glMod, clampR, addS3, abs]

/-- The uniforms uploaded for the overlay-overflow snapshot `c4Snapshot`. -/
theorem c4_uniform_fields (tex : ℝ × ℝ → ℝ) (hasBN : Bool) (time : ℝ) :
    (uniformsOf tex hasBN time c4Snapshot).noiseAmount = 0 ∧
    (uniformsOf tex hasBN time c4Snapshot).gamma = 1 ∧
    (uniformsOf tex hasBN time c4Snapshot).applyDither = false ∧
    (uniformsOf tex hasBN time c4Snapshot).gradientType = 0 ∧
    (uniformsOf tex hasBN time c4Snapshot).gradientMode = 0 ∧
    (uniformsOf tex hasBN time c4Snapshot).blendMode = 1 ∧
    (uniformsOf tex hasBN time c4Snapshot).shaderVariant = 0 ∧
    (uniformsOf tex hasBN time c4Snapshot).hue = 0 ∧
    (uniformsOf tex hasBN time c4Snapshot).saturation = 0 ∧
    (uniformsOf tex hasBN time c4Snapshot).lightness = 1 ∧
    (uniformsOf tex hasBN time c4Snapshot).gradientBaseHue = 0 ∧
    (uniformsOf tex hasBN time c4Snapshot).gradientBaseSaturation = 0 ∧
    (uniformsOf tex hasBN time c4Snapshot).gradientBaseLightness = 0 ∧
    (uniformsOf tex hasBN time c4Snapshot).stops = [⟨0, 0, 0, 0⟩] ∧
    (uniformsOf tex hasBN time c4Snapshot).previewZoom = 1 ∧
    (uniformsOf tex hasBN time c4Snapshot).previewOffset = (0, 0) ∧
    (uniformsOf tex hasBN time c4Snapshot).resolution = (1000, 1000) ∧
    (uniformsOf tex hasBN time c4Snapshot).vignetteStrength = 1 ∧
    (uniformsOf tex hasBN time c4Snapshot).vignetteRadius = 0.5 ∧
    (uniformsOf tex hasBN time c4Snapshot).vignetteFeather = 0.5 ∧
    (uniformsOf tex hasBN time c4Snapshot).vignetteRoundness = 1 ∧
    (uniformsOf tex hasBN time c4Snapshot).vignetteMode = 0 := by
  refine ⟨?_, ?_, ?_, ?_, ?_, ?_, ?_, ?_, ?_, ?_, ?_, ?_, ?_, ?_, ?_, ?_, ?_, ?_, ?_, ?_,
    ?_, ?_⟩ <;>
    norm_num [uniformsOf, c4Snapshot, defaultSnapshot, gradientTypeToInt, blendModeToInt,
      jsIndexOf, List.indexOf, List.findIdx, List.findIdx.go] <;>
    decide

/-- The pre-grain color of the `c4Snapshot` pipeline: a single fully
transparent stop leaves the gradient layer equal to the white base fill,
and the overlay blend of white over white overshoots to `1.7` per
channel. -/
theorem c4_preNoise (tex : ℝ × ℝ → ℝ) (hasBN : Bool) (time : ℝ) (vUV : ℝ × ℝ) :
    preNoiseColor (uniformsOf tex hasBN time c4Snapshot) vUV
      = ((1.7 : ℝ), (1.7 : ℝ), (1.7 : ℝ)) := by
  obtain ⟨ham, hg, hd, hgt, hgm, hbm, hsv, hhue, hsat, hlig, hgb1, hgb2, hgb3, hstops,
    hz, ho, hres, hvs, hvr, hvf, hvro, hvm⟩ := c4_uniform_fields tex hasBN time
  simp only [preNoiseColor, gradientFactor, gradientColor, gradientWalk, resolveStopHsl,
    applyShaderVariant, blendGl, hhue, hsat, hlig, hgb1, hgb2, hgb3, hgt, hgm, hbm, hsv,
    hstops, hsl2rgbGl_white, List.headD, List.tail, List.length_cons, List.length_nil]
  norm_num [mix3, glMix, add3, mul3, clampR, hsl2rgbGl_zeroV, hsl2rgbGl_white]

/-- The `c4Snapshot` vignette at preview pixel `(1, 0.5)`: the anisotropic
distance is 1, the feather band gives `0.5`, and multiply mode at full
strength halves the color. -/
theorem c4_vignette_eval (tex : ℝ × ℝ → ℝ) (hasBN : Bool) (time : ℝ) (c : V3) :
    applyVignette (uniformsOf tex hasBN time c4Snapshot) c (1, 0.5) = smul3 0.5 c := by
  obtain ⟨ham, hg, hd, hgt, hgm, hbm, hsv, hhue, hsat, hlig, hgb1, hgb2, hgb3, hstops,
    hz, ho, hres, hvs, hvr, hvf, hvro, hvm⟩ := c4_uniform_fields tex hasBN time
  have h4 : Real.sqrt 4 = 2 := by
    rw [show (4 : ℝ) = 2 ^ 2 by norm_num]
    exact Real.sqrt_sq (by norm_num)
  unfold applyVignette
  rw [hres, hvs, hvr, hvf, hvro, hvm]
  simp only [glSign, glLength2, glSmoothstep, clampR, mix3, glMix, smul3]
  norm_num [Real.rpow_one, abs]
  refine ⟨Or.inl ?_, Or.inl ?_, Or.inl ?_⟩ <;> norm_num [h4]

/-- **C4** (amended).  With `grain.amount = 0` the grain pass contributes
no noise, but on the WebGL backend it still clamps the composited color to
the unit cube, so the pipeline output matches the grain-pass-skipped
pipeline exactly when the pre-grain composited color already lies in
`[0, 1]³` (every blend except an overflowing `overlay` guarantees this); on
the CPU backend the pass is skipped outright: `generateGrainData` returns
null for a clamped amount of zero, and the painted pixel is independent of
the grain overlay layer. -/
theorem c4_grain_amount_zero_identity :
    (∀ (u : Uniforms) (vUV fragCoord : ℝ × ℝ),
      u.noiseAmount = 0 →
      inUnit3 (preNoiseColor u vUV) →
      shaderPixel u vUV fragCoord = shaderPixelNoGrain u vUV fragCoord) ∧
    (∀ (g : GrainState) (w h : Nat) (baseLightness : ℝ) (seed : Int),
      clampR (g.amount.getD 0) 0 100 ≤ 0 →
      generateGrainData w h (some g) baseLightness seed = none) ∧
    (∀ (gradLayer noiseLayer1 noiseLayer2 : (ℝ × ℝ) → V3 → V3) (s : Snapshot)
      (w h : Nat) (px : ℝ × ℝ),
      clampR ((s.amount : Rat) : ℝ) 0 100 ≤ 0 →
      cpuPaintPixel gradLayer noiseLayer1 s w h px =
        cpuPaintPixel gradLayer noiseLayer2 s w h px) := by
  refine ⟨?_, ?_, ?_⟩
  · intro u vUV fragCoord ham hin
    simp only [shaderPixel, shaderPixelNoGrain, shaderPixelAux, if_true,
      Bool.false_eq_true, if_false, applyNoiseGl_amount_zero _ _ _ _ ham,
      clamp3_of_inUnit3 _ hin]
  · intro g w h baseLightness seed hle
    simp only [generateGrainData]
    by_cases he : g.enabled = some false
    · rw [if_pos he]
    · rw [if_neg he, if_pos hle]
  · intro gradLayer noiseLayer1 noiseLayer2 s w h px hle
    simp only [cpuPaintPixel, if_pos hle]

/-- **C4** (witness).  Concrete instantiation of the grain-pass identity:
minimal uniforms with no stops, normal blend, amount 0 — the pre-grain
color is black, inside the unit cube, and the two pipelines agree. -/
theorem c4_witness :
    shaderPixel c4PlainUniforms (0.5, 0.5) (0, 0)
      = shaderPixelNoGrain c4PlainUniforms (0.5, 0.5) (0, 0) :=
  c4_grain_amount_zero_identity.1 c4PlainUniforms (0.5, 0.5) (0, 0)
    (by norm_num [c4PlainUniforms])
    (by
      have hpre : preNoiseColor c4PlainUniforms (0.5, 0.5) = ((0 : ℝ), (0 : ℝ), (0 : ℝ)) := by
        simp only [preNoiseColor, gradientFactor, gradientColor, applyShaderVariant,
          blendGl, c4PlainUniforms, List.length_nil]
        norm_num [mix3, glMix, add3, mul3, clampR, hsl2rgbGl, glMod, addS3, abs]
      rw [hpre]
      norm_num [inUnit3])

/-- **C4** (counterexample).  The claim fails as stated: for `c4Snapshot`
(amount 0, white base, transparent stop, overlay blend, strong vignette)
the pixel `(1, 0.5)` renders to `0.5` per channel with the grain pass
included but `0.85` per channel with the pass skipped — the clamp inside
the grain pass is observable through the vignette. -/
theorem c4_counterexample :
    shaderPixel (uniformsOf (fun _ => 0) true 0 c4Snapshot) (1, 0.5) (0, 0)
      ≠ shaderPixelNoGrain (uniformsOf (fun _ => 0) true 0 c4Snapshot) (1, 0.5) (0, 0) := by
  obtain ⟨ham, hg, hd, hgt, hgm, hbm, hsv, hhue, hsat, hlig, hgb1, hgb2, hgb3, hstops,
    hz, ho, hres, hvs, hvr, hvf, hvro, hvm⟩ := c4_uniform_fields (fun _ => 0) true 0
  have hprev : shaderPreviewUV (uniformsOf (fun _ => 0) true 0 c4Snapshot) (1, 0.5)
      = ((1 : ℝ), (0.5 : ℝ)) := by
    unfold shaderPreviewUV shaderUV
    rw [hz, ho]
    norm_num [clampR]
  have hwith : shaderPixel (uniformsOf (fun _ => 0) true 0 c4Snapshot) (1, 0.5) (0, 0)
      = ((0.5 : ℝ), (0.5 : ℝ), (0.5 : ℝ)) := by
    simp only [shaderPixel, shaderPixelAux, eq_self_iff_true, if_true]
    rw [applyNoiseGl_amount_zero _ _ _ _ ham, c4_preNoise]
    rw [show clamp3 ((1.7 : ℝ), (1.7 : ℝ), (1.7 : ℝ)) 0 1 = ((1 : ℝ), (1 : ℝ), (1 : ℝ)) by
      norm_num [clamp3, clampR]]
    rw [hprev, c4_vignette_eval, hd]
    simp only [Bool.false_eq_true, if_false]
    rw [hg, pow3_gamma_one]
    norm_num [smul3, clamp3, clampR]
  have hwithout : shaderPixelNoGrain (uniformsOf (fun _ => 0) true 0 c4Snapshot) (1, 0.5) (0, 0)
      = ((0.85 : ℝ), (0.85 : ℝ), (0.85 : ℝ)) := by
    simp only [shaderPixelNoGrain, shaderPixelAux, Bool.false_eq_true, if_false]
    rw [c4_preNoise]
    rw [hprev, c4_vignette_eval, hd]
    simp only [Bool.false_eq_true, if_false]
    rw [hg, pow3_gamma_one]
    norm_num [smul3, clamp3, clampR]
  rw [hwith, hwithout]
  intro hcontra
  have h1 : (0.5 : ℝ) = 0.85 := congrArg Prod.fst hcontra
  norm_num at h1

/-! ## PNG chunk scan and CRC-32 lemmas (claim C8) -/

/-- Reading past an appended prefix lands in the suffix. -/
theorem getD_append_add (l1 l2 : List Nat) (i : Nat) :
    (l1 ++ l2).getD (l1.length + i) 0 = l2.getD i 0 := by
  rw [List.getD_append_right l1 l2 0 _ (Nat.le_add_right _ _)]
  congr 1
  omega

/-- A big-endian 32-bit word is four bytes. -/
theorem u32be_length (n : Nat) : (u32be n).length = 4 := rfl

/-- An encoded chunk occupies `12 + data` bytes (length, type, crc words). -/
theorem encodeChunk_length (c : PngChunk) (h4 : c.ctype.length = 4) :
    (encodeChunk c).length = 12 + c.cdata.length := by
  simp [encodeChunk, u32be_length, h4]
  omega

/-- `DataView.getUint32` at the start of a serialized length word recovers
the length. -/
theorem readU32_here (pre rest : List Nat) (n : Nat) (hn : n < 4294967296) :
    readU32 (pre ++ (u32be n ++ rest)) pre.length = n := by
  have g : ∀ i : Nat, i < 4 →
      (pre ++ (u32be n ++ rest)).getD (pre.length + i) 0 = (u32be n).getD i 0 := by
    intro i hi
    rw [getD_append_add]
    exact List.getD_append _ _ _ _ (by rw [u32be_length]; omega)
  have g0 := g 0 (by omega)
  have g1 := g 1 (by omega)
  have g2 := g 2 (by omega)
  have g3 := g 3 (by omega)
  rw [Nat.add_zero] at g0
  unfold readU32
  rw [g0, g1, g2, g3]
  simp only [u32be, List.getD, List.get?, Option.getD]
  omega

/-- The four type bytes read at a chunk boundary are the chunk's type. -/
theorem chunkTypeAt_here (pre rest : List Nat) (n : Nat) (ty : List Nat) (h4 : ty.length = 4) :
    chunkTypeAt (pre ++ (u32be n ++ (ty ++ rest))) pre.length = ty := by
  have g : ∀ i : Nat, i < 4 →
      (pre ++ (u32be n ++ (ty ++ rest))).getD (pre.length + (4 + i)) 0 = ty.getD i 0 := by
    intro i hi
    rw [getD_append_add]
    have h1 : (4 : Nat) + i = (u32be n).length + i := by rw [u32be_length]
    rw [h1, getD_append_add]
    exact List.getD_append _ _ _ _ (by omega)
  have g0 := g 0 (by omega)
  have g1 := g 1 (by omega)
  have g2 := g 2 (by omega)
  have g3 := g 3 (by omega)
  obtain ⟨t0, t1, t2, t3, rfl⟩ : ∃ a b c d, ty = [a, b, c, d] := by
    match ty, h4 with
    | [a, b, c, d], _ => exact ⟨a, b, c, d, rfl⟩
  unfold chunkTypeAt
  norm_num at g0 g1 g2 g3 ⊢
  rw [g0, g1, g2, g3]
  simp [List.getD]

/-- The scan stops exactly at a serialized `IEND` chunk. -/
theorem findIend_stop (pre rest : List Nat) (n : Nat) :
    findIend (pre ++ (u32be n ++ (iendType ++ rest))) pre.length = .ok pre.length := by
  have hty : chunkTypeAt (pre ++ (u32be n ++ (iendType ++ rest))) pre.length = iendType :=
    chunkTypeAt_here pre rest n iendType rfl
  have hlen : (pre ++ (u32be n ++ (iendType ++ rest))).length
      = pre.length + (8 + rest.length) := by
    simp [u32be_length, iendType]
    omega
  rw [findIend]
  rw [if_pos (by omega), if_neg (by omega), if_pos hty]

/-- The scan skips a serialized non-`IEND` chunk in one step, advancing by
twelve bytes plus the data length. -/
theorem findIend_skip (pre rest ty data : List Nat)
    (h4 : ty.length = 4) (hne : ty ≠ iendType) (hlt : data.length < 4294967296) :
    findIend (pre ++ (u32be data.length ++ (ty ++ (data ++ rest)))) pre.length
      = findIend (pre ++ (u32be data.length ++ (ty ++ (data ++ rest))))
          (pre.length + 12 + data.length) := by
  have hty : chunkTypeAt (pre ++ (u32be data.length ++ (ty ++ (data ++ rest)))) pre.length = ty :=
    chunkTypeAt_here pre (data ++ rest) data.length ty h4
  have hrd : readU32 (pre ++ (u32be data.length ++ (ty ++ (data ++ rest)))) pre.length
      = data.length :=
    readU32_here pre (ty ++ (data ++ rest)) data.length hlt
  have hlen : (pre ++ (u32be data.length ++ (ty ++ (data ++ rest)))).length
      = pre.length + (8 + data.length + rest.length) := by
    simp [u32be_length, h4]
    omega
  conv_lhs => rw [findIend]
  rw [if_pos (by omega), if_neg (by omega)]
  rw [hty, if_neg hne, hrd]

/-- On a well-formed chunk sequence terminated by `IEND`, the scan of
`embedPngMetadata` returns exactly the offset of the `IEND` chunk. -/
theorem findIend_scan (chunks : List PngChunk) : ∀ (pre : List Nat),
    (∀ c ∈ chunks, c.ctype.length = 4 ∧ c.ctype ≠ iendType ∧ c.cdata.length < 4294967296) →
    findIend (pre ++ ((chunks.map encodeChunk).flatten ++ encodeChunk ⟨iendType, []⟩))
        pre.length
      = .ok (pre.length + (chunks.map encodeChunk).flatten.length) := by
  induction chunks with
  | nil =>
      intro pre _
      simp only [List.map_nil, List.flatten_nil, List.nil_append, List.length_nil,
        Nat.add_zero, encodeChunk, List.append_nil, List.append_assoc]
      exact findIend_stop pre (u32be (crc32 iendType)) 0
  | cons c cs ih =>
      intro pre h
      obtain ⟨h4, hne, hlt⟩ := h c (List.mem_cons_self c cs)
      have hrest : ∀ x ∈ cs, x.ctype.length = 4 ∧ x.ctype ≠ iendType
          ∧ x.cdata.length < 4294967296 :=
        fun x hx => h x (List.mem_cons_of_mem c hx)
      have ihp := ih (pre ++ encodeChunk c) hrest
      simp only [List.append_assoc, List.length_append, encodeChunk_length c h4] at ihp
      rw [show pre.length + (12 + c.cdata.length) = pre.length + 12 + c.cdata.length
          by omega] at ihp
      simp only [List.map_cons, List.flatten_cons, List.append_assoc, List.length_append]
      have hbytes : (encodeChunk c : List Nat)
            ++ ((cs.map encodeChunk).flatten ++ encodeChunk ⟨iendType, []⟩)
          = u32be c.cdata.length ++ (c.ctype ++ (c.cdata
              ++ (u32be (crc32 (c.ctype ++ c.cdata))
                ++ ((cs.map encodeChunk).flatten ++ encodeChunk ⟨iendType, []⟩)))) := by
        simp [encodeChunk, List.append_assoc]
      rw [hbytes] at ihp ⊢
      rw [findIend_skip pre
        (u32be (crc32 (c.ctype ++ c.cdata)) ++
          ((cs.map encodeChunk).flatten ++ encodeChunk ⟨iendType, []⟩))
        c.ctype c.cdata h4 hne hlt]
      rw [ihp]
      congr 1
      rw [encodeChunk_length c h4]
      omega

/-- One CRC bit step on a value carrying extra bits above position zero
moves the extra bits down one position (the polynomial xor only depends on
the low bit, which the high part does not touch). -/
theorem crcBitStep_xor_high (j h x : Nat) :
    crcBitStep (x ^^^ 2 ^ (j + 1) * h) = crcBitStep x ^^^ 2 ^ j * h := by
  have hmod : (x ^^^ 2 ^ (j + 1) * h) % 2 = x % 2 := by
    rw [Nat.xor_mod_two_eq]
    have h2 : 2 ^ (j + 1) * h = 2 * (2 ^ j * h) := by ring
    omega
  have hdiv : (x ^^^ 2 ^ (j + 1) * h) / 2 = x / 2 ^^^ 2 ^ j * h := by
    rw [Nat.xor_div_two]
    congr 1
    have h2 : 2 ^ (j + 1) * h = 2 ^ j * h * 2 := by ring
    omega
  unfold crcBitStep
  rw [hmod, hdiv]
  by_cases hx : x % 2 = 1
  · rw [if_pos hx, if_pos hx]
    exact (Nat.xor_assoc _ _ _).symm
  · rw [if_neg hx, if_neg hx]

/-- `k` CRC bit steps are linear in the bits at and above position `k`. -/
theorem crcBitStep_iter_xor (k : Nat) : ∀ x h : Nat,
    crcBitStep^[k] (x ^^^ 2 ^ k * h) = crcBitStep^[k] x ^^^ h := by
  induction k with
  | zero => intro x h; simp
  | succ k ih =>
      intro x h
      rw [Function.iterate_succ_apply, Function.iterate_succ_apply,
        crcBitStep_xor_high, ih]

/-- A natural number is the xor of its low byte and its shifted high part. -/
theorem natSplit256 (x : Nat) : x = (x % 256) ^^^ 2 ^ 8 * (x / 256) := by
  apply Nat.eq_of_testBit_eq
  intro i
  rw [Nat.testBit_xor]
  rw [show (256 : Nat) = 2 ^ 8 from rfl]
  rw [Nat.testBit_mod_two_pow, Nat.testBit_mul_pow_two]
  by_cases h : i < 8
  · have h2 : ¬ 8 ≤ i := by omega
    simp [h, h2]
  · have h2 : 8 ≤ i := by omega
    have h3 : (x / 256).testBit (i - 8) = x.testBit i := by
      rw [show (256 : Nat) = 2 ^ 8 from rfl]
      rw [← Nat.shiftRight_eq_div_pow, Nat.testBit_shiftRight]
      congr 1
      omega
    simp [h, h2, h3]

/-- Eight CRC bit steps of a word equal the table entry of its low byte
xored with the remaining high part: the table-lookup byte step agrees with
eight explicit bit steps. -/
theorem crcByteStep (x : Nat) :
    crcBitStep^[8] x = crcBitStep^[8] (x % 256) ^^^ x / 256 := by
  conv_lhs => rw [natSplit256 x]
  exact crcBitStep_iter_xor 8 (x % 256) (x / 256)

/-- Xoring a byte below 256 into a word does not change its high part. -/
theorem xor_div_256 (c b : Nat) (hb : b < 256) : (c ^^^ b) / 256 = c / 256 := by
  have h1 : (c ^^^ b) / 256 = c / 256 ^^^ b / 256 := by
    have h2 : ∀ y : Nat, y / 256 = y / 2 / 2 / 2 / 2 / 2 / 2 / 2 / 2 := by intro y; omega
    rw [h2, h2 c, h2 b]
    simp only [Nat.xor_div_two]
  rw [h1, Nat.div_eq_of_lt hb, Nat.xor_zero]

/-- The table-driven `crc32` of `renderer.js` computes the standard bitwise
CRC-32 with polynomial `0xEDB88320` on byte sequences. -/
theorem crc32_eq_standard (bytes : List Nat) (hb : ∀ b ∈ bytes, b < 256) :
    crc32 bytes = crc32Standard bytes := by
  have key : ∀ (bs : List Nat), (∀ b ∈ bs, b < 256) → ∀ c : Nat,
      bs.foldl (fun c b => crcTableEntry ((c ^^^ b) % 256) ^^^ c / 256) c
        = bs.foldl (fun c b => crcBitStep^[8] (c ^^^ b)) c := by
    intro bs
    induction bs with
    | nil => intro _ c; rfl
    | cons b rest ih =>
        intro hlt c
        simp only [List.foldl_cons]
        have hstep : crcTableEntry ((c ^^^ b) % 256) ^^^ c / 256
            = crcBitStep^[8] (c ^^^ b) := by
          unfold crcTableEntry
          rw [← xor_div_256 c b (hlt b (List.mem_cons_self b rest)), ← crcByteStep]
        rw [hstep]
        exact ih (fun x hx => hlt x (List.mem_cons_of_mem b hx)) _
  unfold crc32 crc32Standard
  rw [show (fun c b => Nat.xor (crcTableEntry (Nat.xor c b % 256)) (c / 256))
      = (fun c b : Nat => crcTableEntry ((c ^^^ b) % 256) ^^^ c / 256) from rfl]
  rw [show (fun c b => crcBitStep^[8] (Nat.xor c b))
      = (fun c b : Nat => crcBitStep^[8] (c ^^^ b)) from rfl]
  rw [key bytes hb 0xffffffff]

/-- **C8**.  On a well-formed PNG (signature, any sequence of non-`IEND`
chunks with 4-byte types and in-range data lengths, then `IEND`),
`embedPngMetadata` succeeds and splices the `tEXt` chunk immediately before
the `IEND` chunk; the inserted chunk's length field holds exactly the
keyword-plus-payload byte count, and its checksum is the standard CRC-32
(polynomial `0xEDB88320`) of exactly the chunk's type and data bytes. -/
theorem c8_png_text_chunk (chunks : List PngChunk) (text : List Nat)
    (hwf : ∀ c ∈ chunks, c.ctype.length = 4 ∧ c.ctype ≠ iendType
      ∧ c.cdata.length < 4294967296)
    (htext : ∀ b ∈ text, b < 256) :
    embedPngMetadata
        (pngSignature ++ ((chunks.map encodeChunk).flatten ++ encodeChunk ⟨iendType, []⟩))
        text
      = .ok ((pngSignature ++ (chunks.map encodeChunk).flatten)
          ++ ((u32be (settingsKeyword.length + text.length)
              ++ (tEXtType ++ ((settingsKeyword ++ text)
                ++ u32be (crc32Standard (tEXtType ++ (settingsKeyword ++ text))))))
            ++ encodeChunk ⟨iendType, []⟩)) := by
  have hscan := findIend_scan chunks pngSignature hwf
  rw [show (pngSignature.length : Nat) = 8 from rfl] at hscan
  have hcrc : crc32 (tEXtType ++ (settingsKeyword ++ text))
      = crc32Standard (tEXtType ++ (settingsKeyword ++ text)) := by
    apply crc32_eq_standard
    intro b hbmem
    simp only [tEXtType, settingsKeyword, List.mem_append, List.mem_cons,
      List.not_mem_nil, or_false] at hbmem
    rcases hbmem with h | h | h
    · rcases h with h | h | h | h <;> omega
    · rcases h with h | h | h | h | h | h | h | h | h <;> omega
    · exact htext b h
  unfold embedPngMetadata
  rw [hscan]
  have htake : (pngSignature ++ ((chunks.map encodeChunk).flatten
        ++ encodeChunk ⟨iendType, []⟩)).take (8 + (chunks.map encodeChunk).flatten.length)
      = pngSignature ++ (chunks.map encodeChunk).flatten := by
    rw [← List.append_assoc]
    exact List.take_left' (by simp [pngSignature]; omega)
  have hdrop : (pngSignature ++ ((chunks.map encodeChunk).flatten
        ++ encodeChunk ⟨iendType, []⟩)).drop (8 + (chunks.map encodeChunk).flatten.length)
      = encodeChunk ⟨iendType, []⟩ := by
    rw [← List.append_assoc]
    exact List.drop_left' (by simp [pngSignature]; omega)
  simp only [htake, hdrop, List.length_append, hcrc]
  simp [List.append_assoc]

/-- **C8** (witness).  A concrete well-formed PNG — signature, one `IHDR`
chunk with a single data byte, then `IEND` — with payload byte `65`: the
embedding succeeds with the `tEXt` chunk spliced in before `IEND`. -/
theorem c8_witness :
    embedPngMetadata
        (pngSignature ++ ((([⟨[73, 72, 68, 82], [0]⟩] : List PngChunk).map encodeChunk).flatten
          ++ encodeChunk ⟨iendType, []⟩)) [65]
      = .ok ((pngSignature ++ (([⟨[73, 72, 68, 82], [0]⟩] : List PngChunk).map encodeChunk).flatten)
          ++ ((u32be (settingsKeyword.length + 1)
              ++ (tEXtType ++ ((settingsKeyword ++ [65])
                ++ u32be (crc32Standard (tEXtType ++ (settingsKeyword ++ [65]))))))
            ++ encodeChunk ⟨iendType, []⟩)) :=
  c8_png_text_chunk [⟨[73, 72, 68, 82], [0]⟩] [65] (by decide) (by decide)
